import Mathlib

/-!
Verification of the Attio CRM MCP server core (`src/server.py`): identifier
resolution, record/list-entry querying with value flattening, the status
catalog extractor, the bulk add-to-list coordinator, and the per-operation
error handling.

The Python code is shallowly embedded: every remote HTTP call made through
`make_attio_request` is modelled by an oracle field of `AttioEnv` returning
`Except String r` (`Except.error e` is the exception `make_attio_request`
raises, carrying `str(e)`); Python dicts returned to the caller are modelled
by structures whose optional fields are `Option`s (a field absent from the
returned dict is `none`); Python string operations are modelled on the
character list `String.data` (`x in s` on strings is contiguous-substring
containment of code points, as in Python).
-/

/-! ## Python string primitives -/

/-- Python `s.lower()` (ASCII case folding, as the identifiers at issue use). -/
def pyLower (s : String) : String := ⟨s.data.map Char.toLower⟩

/-- Python `c in s` for a single character `c`. -/
def pyContainsChar (s : String) (c : Char) : Bool := s.data.contains c

/-- Python `len(s)`. -/
def pyLen (s : String) : Nat := s.data.length

/-- Python `needle in hay` on strings: contiguous substring containment. -/
def pySubstr (needle hay : String) : Bool := decide (needle.data <:+: hay.data)

/-- Python `needle.lower() in hay.lower()`: the case-insensitive matching used
by every resolver in `server.py`. -/
def lowerIn (needle hay : String) : Bool := pySubstr (pyLower needle) (pyLower hay)

/-- Python `sep.join(names)` (used for the ambiguous-match messages). -/
def pyJoin (sep : String) : List String → String
  | [] => ""
  | [x] => x
  | x :: y :: rest => x ++ sep ++ pyJoin sep (y :: rest)

/-- Python truthiness of an optional string (`None` and `""` are falsy). -/
def pyFalsyStr : Option String → Bool
  | none => true
  | some s => s.data.isEmpty

/-- Python truthiness of an optional bool (`dict.get` of an absent key is
`None`, which is falsy). -/
def pyTruthy : Option Bool → Bool
  | none => false
  | some b => b

/-- Assignment-order lookup in a dict modelled as an association list: the
last binding of a key wins, as for repeated Python dict assignments. -/
def dictGet {α : Type} (l : List (String × α)) (k : String) : Option α :=
  List.lookup k l.reverse

/-! ## Authentication (`make_attio_request`, `server.py` lines 20-64)

`make_attio_request` first resolves the credential: the explicit `api_key`
argument if truthy, else `os.environ.get("ATTIO_API_KEY")`; if neither is
truthy it raises `ValueError(authMissingMsg)`. Only then does it perform the
HTTP call, whose transport/HTTP failures are re-raised as exceptions. -/

/-- The `ValueError` message raised when no API key is resolvable
(`server.py` line 37). -/
def authMissingMsg : String :=
  "API key is required. Please configure it in Poke's integration settings or set ATTIO_API_KEY environment variable."

/-- Credential resolution at the top of `make_attio_request` (lines 33-37). -/
def resolveApiKey (api_key envKey : Option String) : Except String String :=
  if pyFalsyStr api_key then
    if pyFalsyStr envKey then .error authMissingMsg
    else .ok (envKey.getD "")
  else .ok (api_key.getD "")

/-- `make_attio_request`: resolve the credential, then perform the remote
call `remote` (an oracle for the HTTP exchange; `.error e` is the exception
raised on HTTP/transport failure). -/
def make_attio_request {α : Type} (api_key envKey : Option String)
    (remote : Except String α) : Except String α :=
  match resolveApiKey api_key envKey with
  | .error e => .error e
  | .ok _ => remote

/-! ## Remote data model -/

/-- The nested status object read by `get_list_statuses` (lines 483-492):
`status_info["id"]["status_id"]`, `status_info["title"]`,
`status_info.get("is_archived", False)`. Only well-formed status objects (the
shape the extractor reads without raising) are modelled. -/
structure StatusInfo where
  status_id : String
  title : String
  is_archived : Option Bool
deriving DecidableEq

/-- An attribute value (element 0 of a versioned value array). The code
inspects such a value in two ways only: `entry["status"]["status"]` (the
`status` field below is that nested object when present) and
`<value>.get("value", default)` (the `value` field). Other payload is not
observed by the code under verification. -/
structure AttrVal where
  status : Option StatusInfo := none
  value : Option String := none
deriving DecidableEq

/-- A raw record of a `records/query` response: `record.get("id",
{}).get("record_id")` and the versioned `values` mapping. -/
structure RawRecord where
  record_id : Option String
  values : List (String × List AttrVal)
deriving DecidableEq

/-- The flat `record_info` built by `query_records` (without its `"id"` key). -/
structure NormRecord where
  id : Option String
  attrs : List (String × AttrVal)
deriving DecidableEq

/-- The flattening loop `for key, value_list in values.items(): if value_list
and len(value_list) > 0: out[key] = value_list[0]` (lines 231-235 and the
identical loops at 392-402). -/
def flattenValues (values : List (String × List AttrVal)) : List (String × AttrVal) :=
  values.filterMap (fun kv => (kv.2.head?).map (fun v => (kv.1, v)))

/-- `query_records` record normalization (lines 226-237). -/
def normalizeRecord (r : RawRecord) : NormRecord :=
  { id := r.record_id, attrs := flattenValues r.values }

/-- A raw list entry of an `entries/query` response (lines 386-402):
`entry.get("id", {}).get("entry_id")`, `entry.get("parent_record_id")`,
`entry.get("entry_values", {})`, and the optional
`entry["parent_record"]["values"]`. -/
structure RawEntry where
  entry_id : Option String
  parent_record_id : Option String
  entry_values : List (String × List AttrVal)
  parent_record : Option (List (String × List AttrVal))
deriving DecidableEq

/-- The flat `entry_info` dict (without its `entry_id`/`record_id` keys). -/
structure NormEntry where
  entry_id : Option String
  record_id : Option String
  attrs : List (String × AttrVal)
deriving DecidableEq

/-- Entry normalization (lines 385-404): entry-scoped attributes at top
level, parent-record attributes under a `record_` prefix. -/
def normalizeEntry (e : RawEntry) : NormEntry :=
  { entry_id := e.entry_id
    record_id := e.parent_record_id
    attrs := flattenValues e.entry_values ++
      (match e.parent_record with
       | some values => (flattenValues values).map (fun kv => ("record_" ++ kv.1, kv.2))
       | none => []) }

/-- An element of the `GET /lists` response: `list_obj.get("id",
{}).get("list_id")` and `list_obj.get("name")`. -/
structure ListObj where
  list_id : Option String
  name : Option String
deriving DecidableEq

/-! ## Request payloads and the remote environment -/

/-- A filter expression passed by the caller. The two filters the code itself
builds are name-contains and email-contains searches (lines 682-683, 915);
anything else the caller supplies is carried opaquely. -/
inductive AttioFilter where
  | nameContains (s : String)
  | emailContains (s : String)
  | other (tag : String)
deriving DecidableEq

/-- Opaque entry attributes (`entry_attributes` / `attribute_updates` dicts). -/
def EntryAttrs := List (String × String)
deriving instance DecidableEq for EntryAttrs

/-- The `records/query` body built by `query_records` (lines 200-208):
`limit` always, `filter`/`sorts` only when truthy. -/
structure QueryPayload where
  limit : Int
  filter : Option AttioFilter := none
  sorts : Option (List String) := none
deriving DecidableEq

/-- The `entries/query` body built by `_get_list_entries_internal`
(lines 367-369). -/
structure EntriesPayload where
  limit : Int
  filter : Option AttioFilter := none
deriving DecidableEq

/-- The `POST /lists/{id}/entries` body built by `add_to_list`
(lines 698-705). -/
structure AddEntryPayload where
  parent_record_id : Option String
  entry_values : Option EntryAttrs := none
deriving DecidableEq

/-- The `POST /notes` body built by `create_note` (lines 948-956). -/
structure NotePayload where
  parent_object : String
  parent_record_id : String
  title : String
  format : String
  content : String
deriving DecidableEq

/-- The remote CRM plus process configuration, as oracles: one field per
endpoint used by the operations under verification. `Except.error e` models
the exception `make_attio_request` raises for that call (HTTP status or
transport error), `Except.ok` the parsed `data` payload of the response. -/
structure AttioEnv where
  /-- `os.environ.get("ATTIO_API_KEY")`. -/
  envKey : Option String
  /-- `GET /lists` (the `data` list). -/
  listsRemote : Except String (List ListObj)
  /-- `POST /lists/{list_id}/entries/query`, keyed by list id and body. -/
  entriesRemote : Option String → EntriesPayload → Except String (List RawEntry)
  /-- `POST /objects/{object_type}/records/query`, keyed by object type and body. -/
  recordsRemote : String → QueryPayload → Except String (List RawRecord)
  /-- `POST /lists/{list_id}/entries`. -/
  addEntryRemote : Option String → AddEntryPayload → Except String Unit
  /-- `PUT /lists/{list_id}/entries/{entry_id}`. -/
  putEntryRemote : Option String → Option String → EntryAttrs → Except String Unit
  /-- `POST /notes` (returns `data.id.note_id`). -/
  noteRemote : NotePayload → Except String (Option String)

/-! ## `query_records` (lines 171-265) -/

/-- The result dict of `query_records`. Fields absent from a branch's dict
are `none`; `filters_used` (present in every branch, holding the `filters`
argument) is the argument itself. -/
structure QueryRecordsResult where
  success : Bool
  message : String
  found : Option Bool := none
  count : Option Nat := none
  object_type : Option String := none
  records : List NormRecord := []
  filters_used : Option AttioFilter := none
  error : Option String := none
  suggestion : Option String := none
deriving DecidableEq

/-- The error-dependent `suggestion` of `query_records` (lines 250-257). -/
def querySuggestion (object_type error_str : String) : String :=
  if pySubstr "404" error_str || pySubstr "not found" (pyLower error_str) then
    "Object type '" ++ object_type ++ "' may not exist. Use list_available_objects() to see valid types."
  else if pySubstr "400" error_str || pySubstr "bad request" (pyLower error_str) then
    "Filter syntax may be incorrect. Use get_object_schema() to see valid attributes."
  else ""

/-- `query_records(object_type, api_key, filters, limit, sorts)`. -/
def query_records (object_type : String) (api_key : Option String)
    (filters : Option AttioFilter) (limit : Int) (sorts : Option (List String))
    (env : AttioEnv) : QueryRecordsResult :=
  let query_data : QueryPayload := { limit := limit, filter := filters, sorts := sorts }
  match make_attio_request api_key env.envKey (env.recordsRemote object_type query_data) with
  | .error e =>
    { success := false, error := some e
      message := "Failed to query " ++ object_type ++ ": " ++ e
      suggestion := some (querySuggestion object_type e)
      filters_used := filters }
  | .ok data =>
    if data.isEmpty then
      { success := true, found := some false, count := some 0, records := []
        message := "No " ++ object_type ++ " found matching the filters"
        filters_used := filters }
    else
      let records := data.map normalizeRecord
      { success := true, found := some true, count := some records.length
        object_type := some object_type, records := records
        message := "Found " ++ toString records.length ++ " " ++ object_type ++ " matching the filters"
        filters_used := filters }

/-! ## List resolution and `_get_list_entries_internal` (lines 318-448) -/

/-- The `help` dict attached by the two targeted error handlers of
`_get_list_entries_internal`: `statusTool` is the dict naming
`get_list_statuses` (lines 426-430), `eqFormat` the dict showing the
correct/incorrect `$eq` filter format (lines 438-441). -/
inductive EntriesHelp where
  | statusTool
  | eqFormat
deriving DecidableEq

/-- The result dict of `get_list_entries` / `_get_list_entries_internal`.
Fields absent from a branch's dict are `none` (`entries` defaults to `[]`). -/
structure EntriesResult where
  success : Bool
  message : String
  error : Option String := none
  suggestion : Option String := none
  available_lists : Option (List String) := none
  found : Option Bool := none
  count : Option Nat := none
  list_name : Option String := none
  list_id : Option String := none
  entries : List NormEntry := []
  help : Option EntriesHelp := none
deriving DecidableEq

/-- The targeted status-filtering hint (line 425). -/
def statusHintMsg : String :=
  "Status filtering requires status IDs, not display names. Use get_list_statuses() to find available statuses and their IDs."

/-- The targeted filter-operator hint (line 437). -/
def eqHintMsg : String :=
  "Status fields only support '$eq' operator. Use exact status ID matches."

/-- The `except` handler of `_get_list_entries_internal` (lines 416-448):
two known remote error signatures get targeted hints, everything else passes
through with no suggestion. -/
def entriesErrorResult (error_str : String) : EntriesResult :=
  if pySubstr "unknown_filter_status_slug" error_str || pySubstr "Unknown status" error_str then
    { success := false, error := some error_str,
      message := "Status filtering error: " ++ error_str,
      suggestion := some statusHintMsg, help := some .statusTool }
  else if pySubstr "invalid_filter_operator" error_str then
    { success := false, error := some error_str,
      message := "Filter operator error: " ++ error_str,
      suggestion := some eqHintMsg, help := some .eqFormat }
  else
    { success := false, error := some error_str,
      message := "Failed to get list entries: " ++ error_str }

/-- The outcome of the list-identifier resolution prefix of
`_get_list_entries_internal` (lines 324-364): `ok` proceeds to the entries
query with `(list_id, list_name)`, `earlyReturn` is one of the resolution
failure dicts, `raised` an exception from the `GET /lists` call (handled by
the enclosing `except`). -/
inductive ListResolutionOutcome where
  | ok (list_id : Option String) (list_name : String)
  | earlyReturn (r : EntriesResult)
  | raised (e : String)
deriving DecidableEq

/-- Lines 324-364 of `_get_list_entries_internal`: treat the identifier as
the canonical id when it contains `"-"` and `len >= 30`; otherwise fetch all
lists and match display names case-insensitively, with the zero / one / many
branch. -/
def resolve_list_identifier (list_identifier : String) (api_key : Option String)
    (env : AttioEnv) : ListResolutionOutcome :=
  if !(pyContainsChar list_identifier '-') || pyLen list_identifier < 30 then
    match make_attio_request api_key env.envKey env.listsRemote with
    | .error e => .raised e
    | .ok data =>
      if data.isEmpty then
        .earlyReturn
          { success := false,
            message := "No lists found in workspace",
            suggestion := some "Check if lists exist in your Attio workspace" }
      else
        match data.filter (fun l => lowerIn list_identifier (l.name.getD "")) with
        | [] =>
          .earlyReturn
            { success := false,
              message := "Could not find list matching '" ++ list_identifier ++ "'",
              available_lists := some (data.map (fun l => l.name.getD "Unknown")),
              suggestion := some "Use one of the available list names" }
        | [l] => .ok l.list_id (l.name.getD list_identifier)
        | matching_lists =>
          .earlyReturn
            { success := false,
              message := "Found " ++ toString matching_lists.length ++ " lists matching '"
                ++ list_identifier ++ "': "
                ++ pyJoin ", " (matching_lists.map (fun l => l.name.getD "Unknown")),
              suggestion := some "Be more specific or use the list ID directly" }
  else .ok (some list_identifier) list_identifier

/-- `_get_list_entries_internal(list_identifier, api_key, filters, limit)`. -/
def get_list_entries_internal (list_identifier : String) (api_key : Option String)
    (filters : Option AttioFilter) (limit : Int) (env : AttioEnv) : EntriesResult :=
  match resolve_list_identifier list_identifier api_key env with
  | .raised e => entriesErrorResult e
  | .earlyReturn r => r
  | .ok list_id list_name =>
    let query_data : EntriesPayload := { limit := limit, filter := filters }
    match make_attio_request api_key env.envKey (env.entriesRemote list_id query_data) with
    | .error e => entriesErrorResult e
    | .ok data =>
      if data.isEmpty then
        { success := true, found := some false, count := some 0,
          list_name := some list_name, entries := [],
          message := "No entries found in list '" ++ list_name ++ "'"
            ++ (match filters with | some _ => " matching filters" | none => "") }
      else
        let entries := data.map normalizeEntry
        { success := true, found := some true, count := some entries.length,
          list_name := some list_name, list_id := list_id, entries := entries,
          message := "Found " ++ toString entries.length ++ " entries in list '" ++ list_name ++ "'" }

/-- The exposed `get_list_entries` tool delegates to the internal helper
(line 542). -/
def get_list_entries (list_identifier : String) (api_key : Option String)
    (filters : Option AttioFilter) (limit : Int) (env : AttioEnv) : EntriesResult :=
  get_list_entries_internal list_identifier api_key filters limit env

/-! ## `get_list_statuses` (lines 450-520) -/

/-- One status of the returned catalog (lines 489-494). -/
structure StatusValue where
  id : String
  title : String
  is_archived : Bool
  example_entry_count : Nat
deriving DecidableEq

/-- The nested status object of a normalized entry, when present: Python
`"status" in entry and "status" in entry["status"]` followed by
`entry["status"]["status"]` (lines 483-484). -/
def entryStatus (e : NormEntry) : Option StatusInfo :=
  (dictGet e.attrs "status").bind AttrVal.status

/-- One iteration of the status-extraction loop (lines 482-496): a new
status id is appended with `example_entry_count` 1 (preserving insertion
order, as the Python dict does), a seen one has its count incremented. -/
def statusStep (statuses : List StatusValue) (e : NormEntry) : List StatusValue :=
  match entryStatus e with
  | none => statuses
  | some info =>
    if (statuses.map StatusValue.id).contains info.status_id then
      statuses.map (fun s =>
        if s.id == info.status_id then
          { s with example_entry_count := s.example_entry_count + 1 }
        else s)
    else
      statuses ++ [{ id := info.status_id, title := info.title,
                     is_archived := info.is_archived.getD false,
                     example_entry_count := 1 }]

/-- `list(statuses.values())` after the extraction loop: the distinct
statuses in first-observation order, with accumulated counts. -/
def collectStatuses (entries : List NormEntry) : List StatusValue :=
  entries.foldl statusStep []

/-- The comparison of `status_list.sort(key=lambda x: x["title"])`. -/
def statusTitleLe (a b : StatusValue) : Prop := a.title ≤ b.title

instance : DecidableRel statusTitleLe :=
  fun a b => inferInstanceAs (Decidable (a.title ≤ b.title))

instance : IsTotal StatusValue statusTitleLe := ⟨fun a b => le_total a.title b.title⟩

instance : IsTrans StatusValue statusTitleLe :=
  ⟨fun _ _ _ h h' => le_trans (show _ ≤ _ from h) h'⟩

/-- `status_list.sort(key=lambda x: x["title"])` (line 500). Python's sort is
stable; a stable sort by a fixed key is extensionally unique, so the stable
`List.insertionSort` computes the same list. -/
def sortByTitle (l : List StatusValue) : List StatusValue :=
  l.insertionSort statusTitleLe

/-- The statuses-result dict of `get_list_statuses` (the `usage_example`
field, pure presentation derived from `statuses[0]` and the identifier, is
not modelled). -/
structure StatusesResult where
  success : Bool
  message : String
  list_name : Option String := none
  list_id : Option String := none
  count : Option Nat := none
  statuses : List StatusValue := []
deriving DecidableEq

/-- `get_list_statuses` either passes the internal entries failure dict
through unchanged (line 470) or returns its own statuses dict. -/
inductive StatusesOutcome where
  | passthrough (r : EntriesResult)
  | done (r : StatusesResult)
deriving DecidableEq

/-- `get_list_statuses(list_identifier, api_key)`: sample up to 100 entries
through `_get_list_entries_internal`, extract and deduplicate nested status
objects, sort by title. -/
def get_list_statuses (list_identifier : String) (api_key : Option String)
    (env : AttioEnv) : StatusesOutcome :=
  let sample_result := get_list_entries_internal list_identifier api_key none 100 env
  if sample_result.success = false then .passthrough sample_result
  else if pyTruthy sample_result.found = false then
    .done
      { success := true,
        list_name := some (sample_result.list_name.getD list_identifier),
        statuses := [],
        message := "No entries found in list '" ++ list_identifier ++ "' to determine statuses" }
  else
    let status_list := sortByTitle (collectStatuses sample_result.entries)
    .done
      { success := true,
        list_name := some (sample_result.list_name.getD list_identifier),
        list_id := sample_result.list_id,
        count := some status_list.length,
        statuses := status_list,
        message := "Found " ++ toString status_list.length ++ " unique statuses in list '"
          ++ (sample_result.list_name.getD list_identifier) ++ "'" }

/-! ## `add_to_list` (lines 621-739) -/

/-- One element of the bulk `results` list (lines 688-720). -/
structure BulkItemResult where
  identifier : String
  success : Bool
  message : String
deriving DecidableEq

/-- The result dict of `add_to_list`. -/
structure AddToListResult where
  success : Bool
  message : String
  error : Option String := none
  available_lists : Option (List String) := none
  list_name : Option String := none
  total_attempted : Option Nat := none
  successful : Option Nat := none
  failed : Option Nat := none
  results : List BulkItemResult := []
deriving DecidableEq

/-- The outcome of `add_to_list`'s list resolution (lines 643-672): unlike
`_get_list_entries_internal`, it has no many-matches branch and takes
`matching_lists[0]`. -/
inductive AddResolution where
  | ok (list_id : Option String) (list_name : String)
  | earlyReturn (r : AddToListResult)
  | raised (e : String)
deriving DecidableEq

/-- Lines 643-672 of `add_to_list`: canonical-id heuristic, else name search
taking the first match. -/
def add_to_list_resolve (list_identifier : String) (api_key : Option String)
    (env : AttioEnv) : AddResolution :=
  if !(pyContainsChar list_identifier '-') || pyLen list_identifier < 30 then
    match make_attio_request api_key env.envKey env.listsRemote with
    | .error e => .raised e
    | .ok data =>
      if data.isEmpty then
        .earlyReturn { success := false, message := "No lists found in workspace" }
      else
        match data.filter (fun l => lowerIn list_identifier (l.name.getD "")) with
        | [] =>
          .earlyReturn
            { success := false,
              message := "Could not find list '" ++ list_identifier ++ "'",
              available_lists := some (data.map (fun l => l.name.getD "Unknown")) }
        | l :: _ => .ok l.list_id (l.name.getD list_identifier)
  else .ok (some list_identifier) list_identifier

/-- The body of the per-person loop of `add_to_list` (lines 676-720): search
by email-contains when the identifier contains `"@"`, else by name-contains,
with `limit=1`; no match is a per-item failure; the add-entry call's
exception is caught per item (`str(e)` becomes the item message). -/
def add_person (api_key : Option String) (env : AttioEnv) (list_id : Option String)
    (entry_attributes : Option EntryAttrs) (person_id : String) : BulkItemResult :=
  let filters := if !(pyContainsChar person_id '@') then AttioFilter.nameContains person_id
                 else AttioFilter.emailContains person_id
  let search_result := query_records "people" api_key (some filters) 1 none env
  if pyTruthy search_result.found = false then
    { identifier := person_id, success := false, message := "Person not found" }
  else
    match search_result.records with
    | [] => { identifier := person_id, success := false, message := "list index out of range" }
    | r :: _ =>
      let add_data : AddEntryPayload :=
        { parent_record_id := r.id, entry_values := entry_attributes }
      match make_attio_request api_key env.envKey (env.addEntryRemote list_id add_data) with
      | .ok _ => { identifier := person_id, success := true, message := "Added to list" }
      | .error e => { identifier := person_id, success := false, message := e }

/-- The `for person_id in person_identifiers` loop (lines 675-720),
accumulating `results.append(...)` exactly once per identifier. -/
def add_loop (api_key : Option String) (env : AttioEnv) (list_id : Option String)
    (entry_attributes : Option EntryAttrs) (acc : List BulkItemResult) :
    List String → List BulkItemResult
  | [] => acc
  | p :: ps =>
    add_loop api_key env list_id entry_attributes
      (acc ++ [add_person api_key env list_id entry_attributes p]) ps

/-- `add_to_list(list_identifier, person_identifiers, entry_attributes,
api_key)` (lines 621-739). -/
def add_to_list (list_identifier : String) (person_identifiers : List String)
    (entry_attributes : Option EntryAttrs) (api_key : Option String)
    (env : AttioEnv) : AddToListResult :=
  match add_to_list_resolve list_identifier api_key env with
  | .raised e =>
    { success := false, error := some e, message := "Failed to add to list: " ++ e }
  | .earlyReturn r => r
  | .ok list_id list_name =>
    let results := add_loop api_key env list_id entry_attributes [] person_identifiers
    let success_count := results.countP BulkItemResult.success
    { success := true,
      list_name := some list_name,
      total_attempted := some person_identifiers.length,
      successful := some success_count,
      failed := some (person_identifiers.length - success_count),
      results := results,
      message := "Added " ++ toString success_count ++ "/" ++ toString person_identifiers.length
        ++ " people to '" ++ list_name ++ "'" }

/-! ## `update_list_entry` (lines 544-619) -/

/-- The result dict of `update_list_entry`'s own branches. -/
structure UpdateResult where
  success : Bool
  message : String
  error : Option String := none
  suggestion : Option String := none
  updated_attributes : Option EntryAttrs := none
  entry_id : Option String := none
deriving DecidableEq

/-- `update_list_entry` either passes the entries failure dict through
unchanged (line 568) or returns its own dict. -/
inductive UpdateOutcome where
  | passthrough (r : EntriesResult)
  | done (r : UpdateResult)
deriving DecidableEq

/-- `entry.get("record_email_addresses", {}).get("value", "")` (line 580). -/
def record_email_of (e : NormEntry) : String :=
  ((dictGet e.attrs "record_email_addresses").bind AttrVal.value).getD ""

/-- `entry.get("record_name", {}).get("value", "")` (line 581). -/
def record_name_of (e : NormEntry) : String :=
  ((dictGet e.attrs "record_name").bind AttrVal.value).getD ""

/-- The per-entry match test of `update_list_entry`'s search loop
(lines 583-584). -/
def update_match (person_identifier : String) (e : NormEntry) : Bool :=
  lowerIn person_identifier (record_email_of e) || lowerIn person_identifier (record_name_of e)

/-- `update_list_entry(list_identifier, person_identifier,
attribute_updates, api_key)`: fetch up to 100 entries, take the first entry
whose record email or record name contains the person identifier
case-insensitively (`break` on first hit), `PUT` the updates to it. -/
def update_list_entry (list_identifier person_identifier : String)
    (attribute_updates : EntryAttrs) (api_key : Option String)
    (env : AttioEnv) : UpdateOutcome :=
  let entries_result := get_list_entries list_identifier api_key none 100 env
  if entries_result.success = false then .passthrough entries_result
  else if pyTruthy entries_result.found = false then
    .done { success := false,
            message := "List '" ++ list_identifier ++ "' has no entries" }
  else
    match entries_result.entries.find? (update_match person_identifier) with
    | none =>
      .done
        { success := false,
          message := "Could not find '" ++ person_identifier ++ "' in list '"
            ++ list_identifier ++ "'",
          suggestion := some ("Use get_list_entries('" ++ list_identifier
            ++ "') to see who's in the list") }
    | some target_entry =>
      match make_attio_request api_key env.envKey
        (env.putEntryRemote entries_result.list_id target_entry.entry_id attribute_updates) with
      | .error e =>
        .done { success := false, error := some e,
                message := "Failed to update list entry: " ++ e }
      | .ok _ =>
        .done
          { success := true,
            message := "Successfully updated " ++ person_identifier ++ " in list '"
              ++ (entries_result.list_name.getD "None") ++ "'",
            updated_attributes := some attribute_updates,
            entry_id := target_entry.entry_id }

/-! ## `create_note` (lines 879-978) -/

/-- The note-info payload of a successful `create_note` (lines 963-969). -/
structure NoteInfo where
  id : Option String
  title : String
  attached_to : String
  parent_object : String
  parent_record_id : String
deriving DecidableEq

/-- The result dict of `create_note`. -/
structure CreateNoteResult where
  success : Bool
  message : String
  error : Option String := none
  suggestion : Option String := none
  /-- The dict key is `matches` (a Lean keyword). -/
  matched_names : Option (List String) := none
  note : Option NoteInfo := none
deriving DecidableEq

/-- `record.get("name", {}).get("value", default)` on a normalized record
(lines 928, 938). -/
def record_display_name (r : NormRecord) (default : String) : String :=
  ((dictGet r.attrs "name").bind AttrVal.value).getD default

/-- The outcome of `create_note`'s identifier resolution (lines 904-938). -/
inductive NoteResolution where
  | ok (parent_record_id : Option String) (display_name : String)
  | earlyReturn (r : CreateNoteResult)
deriving DecidableEq

/-- Lines 904-938 of `create_note`: the canonical-id heuristic here is
`"-" in parent_identifier and len(parent_identifier) > 30` (strictly greater
— note the difference from the list resolvers' `>= 30`); otherwise a
name-contains search with `limit=5`, failing on zero or several matches. -/
def create_note_resolve (parent_object parent_identifier : String)
    (api_key : Option String) (env : AttioEnv) : NoteResolution :=
  if pyContainsChar parent_identifier '-' && decide (30 < pyLen parent_identifier) then
    .ok (some parent_identifier) parent_identifier
  else
    let search_result := query_records parent_object api_key
      (some (.nameContains parent_identifier)) 5 none env
    if pyTruthy search_result.found = false ∨ search_result.records.isEmpty = true then
      .earlyReturn
        { success := false,
          message := "Could not find " ++ parent_object ++ " matching '"
            ++ parent_identifier ++ "'",
          suggestion := some ("Try query_records('" ++ parent_object
            ++ "', ...) to find the correct name") }
    else if 1 < search_result.records.length then
      let record_names := search_result.records.map (fun r => record_display_name r "Unknown")
      .earlyReturn
        { success := false,
          message := "Found " ++ toString search_result.records.length ++ " " ++ parent_object
            ++ " matching '" ++ parent_identifier ++ "': " ++ pyJoin ", " record_names,
          suggestion := some "Please be more specific with the name, or provide the record ID directly",
          matched_names := some record_names }
    else
      match search_result.records with
      | r :: _ => .ok r.id (record_display_name r parent_identifier)
      | [] => -- unreachable: the records list is non-empty past the first guard
        .earlyReturn
          { success := false,
            message := "Could not find " ++ parent_object ++ " matching '"
              ++ parent_identifier ++ "'" }

/-- `create_note(parent_object, parent_identifier, content, title,
api_key)` (lines 879-978). -/
def create_note (parent_object parent_identifier content title : String)
    (api_key : Option String) (env : AttioEnv) : CreateNoteResult :=
  match create_note_resolve parent_object parent_identifier api_key env with
  | .earlyReturn r => r
  | .ok parent_record_id display_name =>
    if pyFalsyStr parent_record_id then
      { success := false,
        message := "Could not determine record ID for '" ++ parent_identifier ++ "'",
        error := some "Missing record ID" }
    else
      let note_data : NotePayload :=
        { parent_object := parent_object, parent_record_id := parent_record_id.getD "",
          title := title, format := "plaintext", content := content }
      match make_attio_request api_key env.envKey (env.noteRemote note_data) with
      | .error e =>
        { success := false, error := some e,
          message := "Failed to create note: " ++ e,
          suggestion := some "Use list_available_objects() to see valid object types" }
      | .ok note_id =>
        { success := true,
          message := "Successfully added note '" ++ title ++ "' to " ++ parent_object
            ++ " '" ++ display_name ++ "'",
          note := some { id := note_id, title := title, attached_to := display_name,
                         parent_object := parent_object,
                         parent_record_id := parent_record_id.getD "" } }

/-! ## Proof infrastructure for the status catalog

`observedStatusIds` names, for a list of normalized entries, the status ids
of the entries whose normalized form carries a nested status object (the
entries the extractor's loop processes); `newcomers`, `bumpBy` and `incFor`
describe the extractor's accumulator. -/

def observedStatusIds (entries : List NormEntry) : List String :=
  (entries.filterMap entryStatus).map StatusInfo.status_id

def newcomers : List NormEntry → List String → List StatusValue
  | [], _ => []
  | e :: es, seen =>
    match entryStatus e with
    | none => newcomers es seen
    | some info =>
      if info.status_id ∈ seen then newcomers es seen
      else { id := info.status_id, title := info.title,
             is_archived := info.is_archived.getD false,
             example_entry_count := 1 + (observedStatusIds es).count info.status_id }
        :: newcomers es (info.status_id :: seen)

def bumpBy (ids : List String) (sv : StatusValue) : StatusValue :=
  { sv with example_entry_count := sv.example_entry_count + ids.count sv.id }

def incFor (i : String) (s : StatusValue) : StatusValue :=
  if s.id == i then { s with example_entry_count := s.example_entry_count + 1 } else s

/-! ## Concrete sample data (used by witnesses and counterexamples) -/

/-- Two lists whose display names both contain "alpha" case-insensitively. -/
def sampleLists : List ListObj :=
  [{ list_id := some "id-A", name := some "Alpha A" },
   { list_id := some "id-B", name := some "Alpha B" }]

/-- A healthy environment: a configured key, the two sample lists, empty
query results, succeeding mutations. -/
def sampleEnv : AttioEnv :=
  { envKey := some "k",
    listsRemote := .ok sampleLists,
    entriesRemote := fun _ _ => .ok [],
    recordsRemote := fun _ _ => .ok [],
    addEntryRemote := fun _ _ => .ok (),
    putEntryRemote := fun _ _ _ => .ok (),
    noteRemote := fun _ => .ok (some "note-1") }

/-- No credential anywhere; every remote call would raise. -/
def noKeyEnv : AttioEnv :=
  { envKey := none,
    listsRemote := .error "Network error: connection refused",
    entriesRemote := fun _ _ => .error "Network error: connection refused",
    recordsRemote := fun _ _ => .error "Network error: connection refused",
    addEntryRemote := fun _ _ => .error "Network error: connection refused",
    putEntryRemote := fun _ _ _ => .error "Network error: connection refused",
    noteRemote := fun _ => .error "Network error: connection refused" }

/-- A canonical-looking identifier: 31 characters with a separator. -/
def canon31 : String := "aaaaaaaaaaaaaaa-aaaaaaaaaaaaaaa"

/-- The heuristic boundary: exactly 30 characters with a separator. -/
def canon30 : String := "a-aaaaaaaaaaaaaaaaaaaaaaaaaaaa"

/-- A remote error text carrying the unknown-status-slug signature. -/
def slugErr : String := "unknown_filter_status_slug: due diligence"

/-- An environment whose record and entry queries fail with `slugErr`. -/
def slugErrEnv : AttioEnv :=
  { sampleEnv with
    recordsRemote := fun _ _ => .error slugErr,
    entriesRemote := fun _ _ => .error slugErr }

/-- An attribute value wrapping a well-formed nested status object. -/
def statusAttr (i t : String) : AttrVal :=
  { status := some { status_id := i, title := t, is_archived := none }, value := none }

/-- A raw entry whose `status` entry-value carries the given status. -/
def statusRawEntry (i t : String) : RawEntry :=
  { entry_id := some ("entry-" ++ i), parent_record_id := some "rec-1",
    entry_values := [("status", [statusAttr i t])], parent_record := none }

/-- Four sampled entries over exactly three distinct status ids. -/
def statusSample : List RawEntry :=
  [statusRawEntry "s2" "Beta", statusRawEntry "s1" "Alpha",
   statusRawEntry "s2" "Beta", statusRawEntry "s3" "Gamma"]

/-- An environment whose entries query returns `statusSample`. -/
def statusEnv : AttioEnv :=
  { sampleEnv with entriesRemote := fun _ _ => .ok statusSample }

/-- A plain attribute value with only a `value` field. -/
def valueAttr (v : String) : AttrVal := { status := none, value := some v }

/-- A raw entry whose parent record has an email and a name. -/
def emailEntry (eid em : String) : RawEntry :=
  { entry_id := some eid, parent_record_id := some "rec-1", entry_values := [],
    parent_record := some [("email_addresses", [valueAttr em]), ("name", [valueAttr "John Doe"])] }

/-- Two entries whose records both match the identifier "john". -/
def updEntries : List RawEntry :=
  [emailEntry "e1" "john@a.com", emailEntry "e2" "john@b.com"]

/-- An environment whose entries query returns `updEntries`. -/
def updEnv : AttioEnv :=
  { sampleEnv with entriesRemote := fun _ _ => .ok updEntries }

/-- A raw record with a populated, an empty and a multi-valued attribute. -/
def sampleRawRecord : RawRecord :=
  { record_id := some "rec-1",
    values := [("name", [valueAttr "John"]), ("emptykey", []),
               ("email_addresses", [valueAttr "j@e.com", valueAttr "old@e.com"])] }

/-! ## Theorems -/

theorem data_append (a b : String) : (a ++ b).data = a.data ++ b.data := rfl

theorem mem_infix_pyJoin {x : String} (sep : String) :
    ∀ {l : List String}, x ∈ l → x.data <:+: (pyJoin sep l).data
  | [], h => absurd h (List.not_mem_nil x)
  | [y], h => by
    rcases List.mem_singleton.mp h with rfl
    exact List.infix_refl _
  | y :: z :: rest, h => by
    rcases List.mem_cons.mp h with rfl | h'
    · show x.data <:+: (x ++ sep ++ pyJoin sep (z :: rest)).data
      rw [data_append, data_append]
      exact ((List.prefix_append _ _).trans (List.prefix_append _ _)).isInfix
    · have ih := mem_infix_pyJoin sep h'
      show x.data <:+: (y ++ sep ++ pyJoin sep (z :: rest)).data
      rw [data_append, data_append]
      exact ih.trans (List.suffix_append _ _).isInfix

theorem lookup_eq_of_nodup {β : Type} :
    ∀ {l : List (String × β)} {k : String} {v : β},
      (l.map Prod.fst).Nodup → (k, v) ∈ l → List.lookup k l = some v
  | [], _, _, _, h => absurd h (List.not_mem_nil _)
  | (k', v') :: t, k, v, hnd, hm => by
    rcases List.mem_cons.mp hm with he | ht
    · cases he
      simp [List.lookup]
    · have hk : k ≠ k' := by
        rintro rfl
        exact (List.nodup_cons.mp hnd).1 (List.mem_map.mpr ⟨(k, v), ht, rfl⟩)
      have : (k == k') = false := by simp [hk]
      simp [List.lookup, this]
      exact lookup_eq_of_nodup (List.nodup_cons.mp hnd).2 ht

theorem dictGet_eq_of_nodup {β : Type} {l : List (String × β)} {k : String} {v : β}
    (hnd : (l.map Prod.fst).Nodup) (hm : (k, v) ∈ l) : dictGet l k = some v := by
  unfold dictGet
  refine lookup_eq_of_nodup ?_ (List.mem_reverse.mpr hm)
  rw [List.map_reverse]
  exact List.nodup_reverse.mpr hnd

theorem keys_nodup_val_eq {β : Type} {l : List (String × β)} {k : String} {a b : β}
    (hnd : (l.map Prod.fst).Nodup) (ha : (k, a) ∈ l) (hb : (k, b) ∈ l) : a = b := by
  have h1 := lookup_eq_of_nodup hnd ha
  have h2 := lookup_eq_of_nodup hnd hb
  rw [h1] at h2
  exact Option.some_inj.mp h2

theorem flattenValues_keys_sublist :
    ∀ values : List (String × List AttrVal),
      ((flattenValues values).map Prod.fst).Sublist (values.map Prod.fst)
  | [] => List.Sublist.refl _
  | kv :: t => by
    unfold flattenValues
    rw [List.filterMap_cons]
    rcases h : (kv.2.head?).map (fun v => (kv.1, v)) with _ | p
    · exact (flattenValues_keys_sublist t).cons kv.1
    · rw [Option.map_eq_some'] at h
      rcases h with ⟨a, _, rfl⟩
      exact (flattenValues_keys_sublist t).cons₂ kv.1

theorem mem_flattenValues {values : List (String × List AttrVal)} {k : String} {v : AttrVal} :
    (k, v) ∈ flattenValues values ↔ ∃ vl, (k, vl) ∈ values ∧ vl.head? = some v := by
  unfold flattenValues
  rw [List.mem_filterMap]
  constructor
  · rintro ⟨⟨k', vl⟩, hm, he⟩
    rw [Option.map_eq_some'] at he
    rcases he with ⟨a, ha, he⟩
    cases he
    exact ⟨vl, hm, ha⟩
  · rintro ⟨vl, hm, hh⟩
    exact ⟨(k, vl), hm, by simp [hh]⟩

/-- Claim C5: the values-flattening of `query_records` produces a mapping that
contains an attribute key `k` (distinct from the added `id` field) exactly when
the raw `values` mapping holds `k` with a non-empty array, and then maps `k` to
element 0 of that array; a key with an empty array is omitted entirely, and no
key absent from the input appears in the output. -/
theorem normalize_record_values_flattening (r : RawRecord)
    (hnd : (r.values.map Prod.fst).Nodup) (k : String) (hk : k ≠ "id") :
    (∀ v, (k, v) ∈ (normalizeRecord r).attrs ↔ ∃ vl, (k, vl) ∈ r.values ∧ vl.head? = some v)
    ∧ ((∃ v, (k, v) ∈ (normalizeRecord r).attrs) ↔ ∃ vl, (k, vl) ∈ r.values ∧ vl ≠ [])
    ∧ (∀ vl, (k, vl) ∈ r.values → vl = [] → ∀ v, (k, v) ∉ (normalizeRecord r).attrs)
    ∧ ((∀ vl, (k, vl) ∉ r.values) → ∀ v, (k, v) ∉ (normalizeRecord r).attrs)
    ∧ (∀ vl v, (k, vl) ∈ r.values → vl.head? = some v →
        dictGet (normalizeRecord r).attrs k = some v) := by
  have hattrs : (normalizeRecord r).attrs = flattenValues r.values := rfl
  refine ⟨?_, ?_, ?_, ?_, ?_⟩
  · intro v; rw [hattrs]; exact mem_flattenValues
  · rw [hattrs]
    constructor
    · rintro ⟨v, hv⟩
      rcases mem_flattenValues.mp hv with ⟨vl, hm, hh⟩
      exact ⟨vl, hm, by rintro rfl; simp at hh⟩
    · rintro ⟨vl, hm, hne⟩
      rcases vl with _ | ⟨a, t⟩
      · exact absurd rfl hne
      · exact ⟨a, mem_flattenValues.mpr ⟨a :: t, hm, rfl⟩⟩
  · intro vl hm hvl v hv
    rw [hattrs] at hv
    rcases mem_flattenValues.mp hv with ⟨vl', hm', hh⟩
    have : vl = vl' := by
      have := hnd
      exact keys_nodup_val_eq hnd hm hm'
    subst this
    subst hvl
    simp at hh
  · intro habs v hv
    rw [hattrs] at hv
    rcases mem_flattenValues.mp hv with ⟨vl, hm, _⟩
    exact habs vl hm
  · intro vl v hm hh
    have hsub : ((flattenValues r.values).map Prod.fst).Nodup := by
      exact (flattenValues_keys_sublist r.values).nodup hnd
    rw [hattrs]
    exact dictGet_eq_of_nodup hsub (mem_flattenValues.mpr ⟨vl, hm, hh⟩)

theorem newcomers_congr : ∀ (es : List NormEntry) {s₁ s₂ : List String},
    (∀ x, x ∈ s₁ ↔ x ∈ s₂) → newcomers es s₁ = newcomers es s₂
  | [], _, _, _ => rfl
  | e :: es, s₁, s₂, h => by
    cases hst : entryStatus e with
    | none => simp only [newcomers, hst]; exact newcomers_congr es h
    | some info =>
      simp only [newcomers, hst]
      by_cases hi : info.status_id ∈ s₁
      · rw [if_pos hi, if_pos ((h _).mp hi)]
        exact newcomers_congr es h
      · rw [if_neg hi, if_neg (fun hx => hi ((h _).mpr hx))]
        have hx : ∀ x, x ∈ info.status_id :: s₁ ↔ x ∈ info.status_id :: s₂ := by
          intro x
          simp only [List.mem_cons]
          exact or_congr Iff.rfl (h x)
        rw [newcomers_congr es hx]

theorem observedStatusIds_cons_none {e : NormEntry} {es : List NormEntry}
    (h : entryStatus e = none) : observedStatusIds (e :: es) = observedStatusIds es := by
  simp [observedStatusIds, List.filterMap_cons, h]

theorem observedStatusIds_cons_some {e : NormEntry} {es : List NormEntry} {info : StatusInfo}
    (h : entryStatus e = some info) :
    observedStatusIds (e :: es) = info.status_id :: observedStatusIds es := by
  simp [observedStatusIds, List.filterMap_cons, h]

theorem statusStep_none {e : NormEntry} {acc : List StatusValue}
    (h : entryStatus e = none) : statusStep acc e = acc := by
  simp only [statusStep, h]

theorem statusStep_seen {e : NormEntry} {acc : List StatusValue} {info : StatusInfo}
    (h : entryStatus e = some info) (hi : info.status_id ∈ acc.map StatusValue.id) :
    statusStep acc e = acc.map (incFor info.status_id) := by
  simp only [statusStep, h]
  rw [if_pos (List.elem_iff.mpr hi)]
  rfl

theorem statusStep_new {e : NormEntry} {acc : List StatusValue} {info : StatusInfo}
    (h : entryStatus e = some info) (hi : info.status_id ∉ acc.map StatusValue.id) :
    statusStep acc e
      = acc ++ [⟨info.status_id, info.title, info.is_archived.getD false, 1⟩] := by
  simp only [statusStep, h]
  rw [if_neg (fun hc => hi (List.elem_iff.mp hc))]

theorem newcomers_cons_none {e : NormEntry} {es : List NormEntry} {seen : List String}
    (h : entryStatus e = none) : newcomers (e :: es) seen = newcomers es seen := by
  simp only [newcomers, h]

theorem newcomers_cons_some_seen {e : NormEntry} {es : List NormEntry} {seen : List String}
    {info : StatusInfo} (h : entryStatus e = some info) (hi : info.status_id ∈ seen) :
    newcomers (e :: es) seen = newcomers es seen := by
  simp only [newcomers, h, if_pos hi]

theorem newcomers_cons_some_new {e : NormEntry} {es : List NormEntry} {seen : List String}
    {info : StatusInfo} (h : entryStatus e = some info) (hi : info.status_id ∉ seen) :
    newcomers (e :: es) seen
      = ⟨info.status_id, info.title, info.is_archived.getD false,
          1 + (observedStatusIds es).count info.status_id⟩
        :: newcomers es (info.status_id :: seen) := by
  simp only [newcomers, h, if_neg hi]

theorem bumpBy_nil (sv : StatusValue) : bumpBy [] sv = sv := by
  simp [bumpBy]

theorem incFor_id (i : String) (s : StatusValue) : (incFor i s).id = s.id := by
  unfold incFor
  by_cases h : s.id == i <;> simp [h]

theorem foldl_statusStep : ∀ (es : List NormEntry) (acc : List StatusValue),
    es.foldl statusStep acc
      = acc.map (bumpBy (observedStatusIds es)) ++ newcomers es (acc.map StatusValue.id)
  | [], acc => by
    show acc = _
    rw [newcomers, List.append_nil]
    have : ∀ sv ∈ acc, bumpBy (observedStatusIds []) sv = sv := by
      intro sv _
      simp [observedStatusIds, bumpBy]
    rw [List.map_congr_left this, List.map_id']
  | e :: es, acc => by
    rw [List.foldl_cons]
    cases hst : entryStatus e with
    | none =>
      rw [statusStep_none hst, foldl_statusStep es acc,
          observedStatusIds_cons_none hst, newcomers_cons_none hst]
    | some info =>
      by_cases hseen : info.status_id ∈ acc.map StatusValue.id
      · rw [statusStep_seen hst hseen, foldl_statusStep es _,
            observedStatusIds_cons_some hst, newcomers_cons_some_seen hst hseen]
        have hid : (acc.map (incFor info.status_id)).map StatusValue.id
            = acc.map StatusValue.id := by
          rw [List.map_map]
          exact List.map_congr_left (fun a _ => incFor_id info.status_id a)
        rw [hid]
        congr 1
        rw [List.map_map]
        apply List.map_congr_left
        intro a _
        obtain ⟨aid, atitle, aarch, acount⟩ := a
        by_cases hbeq : aid = info.status_id
        · subst hbeq
          simp [Function.comp, incFor, bumpBy, List.count_cons]
          omega
        · have : (aid == info.status_id) = false := by simp [hbeq]
          simp [Function.comp, incFor, bumpBy, List.count_cons, this]
          intro h'
          exact absurd h'.symm hbeq
      · rw [statusStep_new hst hseen, foldl_statusStep es _,
            observedStatusIds_cons_some hst, newcomers_cons_some_new hst hseen]
        rw [List.map_append, List.map_append]
        have hsing : List.map StatusValue.id
            [(⟨info.status_id, info.title, info.is_archived.getD false, 1⟩ : StatusValue)]
            = [info.status_id] := rfl
        rw [hsing]
        have hcongr : newcomers es (acc.map StatusValue.id ++ [info.status_id])
            = newcomers es (info.status_id :: acc.map StatusValue.id) := by
          apply newcomers_congr
          intro x
          simp [List.mem_append, List.mem_cons, or_comm]
        rw [hcongr]
        have hbumps : ∀ a ∈ acc, bumpBy (observedStatusIds es) a
            = bumpBy (info.status_id :: observedStatusIds es) a := by
          intro a ha
          have hne : a.id ≠ info.status_id := by
            intro h
            exact hseen (h ▸ List.mem_map_of_mem StatusValue.id ha)
          have hne' : info.status_id ≠ a.id := fun h => hne h.symm
          have : (info.status_id == a.id) = false := by simp [hne']
          simp [bumpBy, List.count_cons, this]
        rw [List.map_congr_left hbumps]
        have hnew1 : List.map (bumpBy (observedStatusIds es))
            [(⟨info.status_id, info.title, info.is_archived.getD false, 1⟩ : StatusValue)]
            = [(⟨info.status_id, info.title, info.is_archived.getD false,
                 1 + (observedStatusIds es).count info.status_id⟩ : StatusValue)] := by
          simp [bumpBy]
        rw [hnew1, List.append_assoc]
        rfl

theorem collectStatuses_eq_newcomers (es : List NormEntry) :
    collectStatuses es = newcomers es [] := by
  unfold collectStatuses
  rw [foldl_statusStep es []]
  rfl

theorem newcomers_id_mem : ∀ (es : List NormEntry) (seen : List String) (i : String),
    i ∈ (newcomers es seen).map StatusValue.id ↔ i ∈ observedStatusIds es ∧ i ∉ seen
  | [], seen, i => by
    rw [newcomers]
    simp [observedStatusIds]
  | e :: es, seen, i => by
    cases hst : entryStatus e with
    | none =>
      rw [newcomers_cons_none hst, observedStatusIds_cons_none hst]
      exact newcomers_id_mem es seen i
    | some info =>
      rw [observedStatusIds_cons_some hst]
      by_cases hi : info.status_id ∈ seen
      · rw [newcomers_cons_some_seen hst hi]
        rw [newcomers_id_mem es seen i]
        constructor
        · rintro ⟨hm, hn⟩
          exact ⟨List.mem_cons_of_mem _ hm, hn⟩
        · rintro ⟨hm, hn⟩
          rcases List.mem_cons.mp hm with rfl | hm'
          · exact absurd hi hn
          · exact ⟨hm', hn⟩
      · rw [newcomers_cons_some_new hst hi]
        simp only [List.map_cons, List.mem_cons]
        rw [newcomers_id_mem es (info.status_id :: seen) i]
        constructor
        · rintro (rfl | ⟨hm, hn⟩)
          · exact ⟨Or.inl rfl, hi⟩
          · exact ⟨Or.inr hm, fun hx => hn (List.mem_cons_of_mem _ hx)⟩
        · rintro ⟨hm, hn⟩
          rcases hm with rfl | hm'
          · exact Or.inl rfl
          · by_cases hii : i = info.status_id
            · exact Or.inl hii
            · exact Or.inr ⟨hm', fun hx => by
                rcases List.mem_cons.mp hx with h | h
                · exact hii h
                · exact hn h⟩

theorem newcomers_id_nodup : ∀ (es : List NormEntry) (seen : List String),
    ((newcomers es seen).map StatusValue.id).Nodup
  | [], seen => by rw [newcomers]; simp
  | e :: es, seen => by
    cases hst : entryStatus e with
    | none => rw [newcomers_cons_none hst]; exact newcomers_id_nodup es seen
    | some info =>
      by_cases hi : info.status_id ∈ seen
      · rw [newcomers_cons_some_seen hst hi]; exact newcomers_id_nodup es seen
      · rw [newcomers_cons_some_new hst hi]
        rw [List.map_cons, List.nodup_cons]
        refine ⟨fun hx => ?_, newcomers_id_nodup es _⟩
        exact ((newcomers_id_mem es _ _).mp hx).2 (List.mem_cons_self _ _)

theorem newcomers_count : ∀ (es : List NormEntry) (seen : List String) (sv : StatusValue),
    sv ∈ newcomers es seen → sv.example_entry_count = (observedStatusIds es).count sv.id
  | [], _, _, h => by rw [newcomers] at h; cases h
  | e :: es, seen, sv, h => by
    cases hst : entryStatus e with
    | none =>
      rw [newcomers_cons_none hst] at h
      rw [observedStatusIds_cons_none hst]
      exact newcomers_count es seen sv h
    | some info =>
      rw [observedStatusIds_cons_some hst, List.count_cons]
      by_cases hi : info.status_id ∈ seen
      · rw [newcomers_cons_some_seen hst hi] at h
        have hid : sv.id ∉ seen :=
          ((newcomers_id_mem es seen sv.id).mp (List.mem_map_of_mem _ h)).2
        have hne : (info.status_id == sv.id) = false := by
          rw [beq_eq_false_iff_ne]
          intro heq
          exact hid (heq ▸ hi)
        rw [hne]
        simp [newcomers_count es seen sv h]
      · rw [newcomers_cons_some_new hst hi] at h
        rcases List.mem_cons.mp h with rfl | h'
        · simp
          omega
        · have hid : sv.id ∉ info.status_id :: seen :=
            ((newcomers_id_mem es _ sv.id).mp (List.mem_map_of_mem _ h')).2
          have hne : (info.status_id == sv.id) = false := by
            rw [beq_eq_false_iff_ne]
            intro heq
            exact hid (List.mem_cons.mpr (Or.inl heq.symm))
          rw [hne]
          simp [newcomers_count es _ sv h']

theorem length_eq_dedup_length {l₁ l₂ : List String}
    (h₁ : l₁.Nodup) (hmem : ∀ i, i ∈ l₁ ↔ i ∈ l₂) : l₁.length = l₂.dedup.length := by
  have hfs : l₁.toFinset = l₂.dedup.toFinset := by
    apply Finset.ext
    intro a
    simp only [List.mem_toFinset, List.mem_dedup]
    exact hmem a
  calc l₁.length = l₁.toFinset.card := (List.toFinset_card_of_nodup h₁).symm
    _ = l₂.dedup.toFinset.card := by rw [hfs]
    _ = l₂.dedup.length := List.toFinset_card_of_nodup (List.nodup_dedup l₂)

theorem make_attio_request_ok {α : Type} {api_key envKey : Option String}
    {r : Except String α} (h : ∃ k, resolveApiKey api_key envKey = .ok k) :
    make_attio_request api_key envKey r = r := by
  rcases h with ⟨k, hk⟩
  unfold make_attio_request
  rw [hk]

theorem canonical_cond_false {s : String}
    (hid : pyContainsChar s '-' = true) (hlen : 30 ≤ pyLen s) :
    (!(pyContainsChar s '-') || decide (pyLen s < 30)) = false := by
  rw [hid]
  simp [Nat.not_lt.mpr hlen]

theorem resolve_list_identifier_canonical {s : String} {api_key : Option String}
    {env : AttioEnv} (hid : pyContainsChar s '-' = true) (hlen : 30 ≤ pyLen s) :
    resolve_list_identifier s api_key env = .ok (some s) s := by
  unfold resolve_list_identifier
  rw [if_neg]
  rw [canonical_cond_false hid hlen]
  exact Bool.false_ne_true

theorem get_list_entries_internal_canonical_ok
    {s : String} {api_key : Option String} {filters : Option AttioFilter} {limit : Int}
    {env : AttioEnv} {raws : List RawEntry}
    (hid : pyContainsChar s '-' = true) (hlen : 30 ≤ pyLen s)
    (hauth : ∃ k, resolveApiKey api_key env.envKey = .ok k)
    (hent : env.entriesRemote (some s) { limit := limit, filter := filters } = .ok raws)
    (hne : raws ≠ []) :
    get_list_entries_internal s api_key filters limit env
      = { success := true, found := some true,
          count := some (raws.map normalizeEntry).length,
          list_name := some s, list_id := some s,
          entries := raws.map normalizeEntry,
          message := "Found " ++ toString (raws.map normalizeEntry).length
            ++ " entries in list '" ++ s ++ "'" } := by
  unfold get_list_entries_internal
  rw [resolve_list_identifier_canonical hid hlen]
  dsimp only
  rw [make_attio_request_ok hauth, hent]
  obtain ⟨a, t, rfl⟩ : ∃ a t, raws = a :: t := by
    cases raws with
    | nil => exact absurd rfl hne
    | cons a t => exact ⟨a, t, rfl⟩
  rfl

/-- Claim C6: `get_list_statuses` samples up to 100 entries of the resolved
list (the entries query is issued with limit 100), and over every entry whose
normalized form carries a nested status object it deduplicates by status id,
counts for each distinct id the number of sampled entries carrying it, and
returns the distinct statuses sorted ascending by display title; in particular
the result length equals the number of distinct observed status ids, so a
sample with exactly 3 distinct ids yields exactly 3 entries. -/
theorem get_list_statuses_catalog
    (s : String) (api_key : Option String) (env : AttioEnv) (raws : List RawEntry)
    (hid : pyContainsChar s '-' = true) (hlen : 30 ≤ pyLen s)
    (hauth : ∃ k, resolveApiKey api_key env.envKey = .ok k)
    (hent : env.entriesRemote (some s) { limit := 100, filter := none } = .ok raws)
    (hne : raws ≠ []) :
    ∃ res, get_list_statuses s api_key env = .done res
      ∧ res.success = true
      ∧ res.list_id = some s
      ∧ (res.statuses.map StatusValue.id).Nodup
      ∧ (∀ i, i ∈ res.statuses.map StatusValue.id
          ↔ i ∈ observedStatusIds (raws.map normalizeEntry))
      ∧ (∀ sv ∈ res.statuses, sv.example_entry_count
          = (observedStatusIds (raws.map normalizeEntry)).count sv.id)
      ∧ res.statuses.Sorted statusTitleLe
      ∧ res.statuses.length = (observedStatusIds (raws.map normalizeEntry)).dedup.length
      ∧ res.count = some res.statuses.length := by
  have hsample := @get_list_entries_internal_canonical_ok s api_key none 100 env raws
    hid hlen hauth hent hne
  set entries := raws.map normalizeEntry with hentries
  unfold get_list_statuses
  rw [hsample]
  dsimp only
  refine ⟨_, rfl, rfl, rfl, ?_, ?_, ?_, ?_, ?_, rfl⟩
  all_goals
    have hperm : sortByTitle (collectStatuses entries) |>.Perm (collectStatuses entries) :=
      List.perm_insertionSort statusTitleLe (collectStatuses entries)
    have hcoll : collectStatuses entries = newcomers entries [] :=
      collectStatuses_eq_newcomers entries
  · -- Nodup of ids
    have := (hperm.map StatusValue.id).nodup_iff
    rw [this, hcoll]
    exact newcomers_id_nodup entries []
  · -- membership of ids
    intro i
    rw [(hperm.map StatusValue.id).mem_iff, hcoll, newcomers_id_mem entries [] i]
    simp
  · -- counts
    intro sv hm
    have : sv ∈ collectStatuses entries := hperm.mem_iff.mp hm
    rw [hcoll] at this
    exact newcomers_count entries [] sv this
  · -- sortedness
    exact List.sorted_insertionSort statusTitleLe (collectStatuses entries)
  · -- length = number of distinct observed ids
    have hlen2 : (sortByTitle (collectStatuses entries) |>.map StatusValue.id).length
        = (observedStatusIds entries).dedup.length := by
      apply length_eq_dedup_length
      · rw [(hperm.map StatusValue.id).nodup_iff, hcoll]
        exact newcomers_id_nodup entries []
      · intro i
        rw [(hperm.map StatusValue.id).mem_iff, hcoll, newcomers_id_mem entries [] i]
        simp
    rw [List.length_map] at hlen2
    exact hlen2

theorem name_cond_true {s : String} (h : ¬(pyContainsChar s '-' = true ∧ 30 ≤ pyLen s)) :
    (!(pyContainsChar s '-') || decide (pyLen s < 30)) = true := by
  by_cases hc : pyContainsChar s '-' = true
  · have hlen : pyLen s < 30 := by
      rcases Nat.lt_or_ge (pyLen s) 30 with h' | h'
      · exact h'
      · exact absurd ⟨hc, h'⟩ h
    simp [hc, hlen]
  · have hc' : pyContainsChar s '-' = false := by
      cases hcc : pyContainsChar s '-'
      · rfl
      · exact absurd hcc hc
    simp [hc']

theorem add_to_list_resolve_canonical {s : String} {api_key : Option String}
    {env : AttioEnv} (hid : pyContainsChar s '-' = true) (hlen : 30 ≤ pyLen s) :
    add_to_list_resolve s api_key env = .ok (some s) s := by
  unfold add_to_list_resolve
  rw [if_neg]
  rw [canonical_cond_false hid hlen]
  exact Bool.false_ne_true

theorem isEmpty_false_of_ne_nil {α : Type} {l : List α} (h : l ≠ []) :
    l.isEmpty = false := by
  cases l with
  | nil => exact absurd rfl h
  | cons a t => rfl

/-- Claim C2 (amended): for the list resolvers (`get_list_entries` via
`_get_list_entries_internal`, and `add_to_list`) an identifier is treated as a
canonical id directly, with no remote call, exactly when it contains the
separator and has length at least 30, and otherwise the name search (the
`GET /lists` request) is always attempted; `create_note`, however, uses the
strict bound `len > 30`, so its canonical path requires length at least 31 and
a 30-character identifier goes down the name-search path. -/
theorem canonical_id_heuristic_paths
    (s ot e : String) (api_key : Option String) (env : AttioEnv)
    (hauth : ∃ k, resolveApiKey api_key env.envKey = .ok k) :
    ((pyContainsChar s '-' = true ∧ 30 ≤ pyLen s) →
        resolve_list_identifier s api_key env = .ok (some s) s
        ∧ add_to_list_resolve s api_key env = .ok (some s) s)
    ∧ (¬(pyContainsChar s '-' = true ∧ 30 ≤ pyLen s) →
        resolve_list_identifier s api_key { env with listsRemote := .error e } = .raised e
        ∧ add_to_list_resolve s api_key { env with listsRemote := .error e } = .raised e)
    ∧ ((pyContainsChar s '-' = true ∧ 31 ≤ pyLen s) →
        create_note_resolve ot s api_key env = .ok (some s) s)
    ∧ (¬(pyContainsChar s '-' = true ∧ 31 ≤ pyLen s) →
        ∃ r, create_note_resolve ot s api_key { env with recordsRemote := fun _ _ => .ok [] }
            = .earlyReturn r ∧ r.success = false) := by
  refine ⟨?_, ?_, ?_, ?_⟩
  · rintro ⟨hid, hlen⟩
    exact ⟨resolve_list_identifier_canonical hid hlen, add_to_list_resolve_canonical hid hlen⟩
  · intro h
    constructor
    · unfold resolve_list_identifier
      rw [if_pos (by rw [name_cond_true h])]
      rw [make_attio_request_ok hauth]
    · unfold add_to_list_resolve
      rw [if_pos (by rw [name_cond_true h])]
      rw [make_attio_request_ok hauth]
  · rintro ⟨hid, hlen⟩
    unfold create_note_resolve
    rw [if_pos]
    rw [hid]
    simp only [Bool.true_and, decide_eq_true_eq]
    show 30 < pyLen s
    omega
  · intro h
    have hcond : ¬(pyContainsChar s '-' && decide (30 < pyLen s)) = true := by
      intro hcond
      rw [Bool.and_eq_true] at hcond
      rcases hcond with ⟨hid, hlt⟩
      rw [decide_eq_true_eq] at hlt
      exact h ⟨hid, by omega⟩
    have hq : query_records ot api_key (some (.nameContains s)) 5 none
        { env with recordsRemote := fun _ _ => .ok [] }
        = { success := true, found := some false, count := some 0, records := [],
            message := "No " ++ ot ++ " found matching the filters",
            filters_used := some (.nameContains s) } := by
      unfold query_records
      dsimp only
      rw [make_attio_request_ok hauth]
      rfl
    refine ⟨{ success := false,
              message := "Could not find " ++ ot ++ " matching '" ++ s ++ "'",
              suggestion := some ("Try query_records('" ++ ot
                ++ "', ...) to find the correct name") }, ?_, rfl⟩
    unfold create_note_resolve
    rw [if_neg hcond]
    simp only [hq]
    rfl

/-- Claim C1 (amended): when `add_to_list` resolves its list identifier by
name and one or more lists match case-insensitively, it silently picks the
first matching list in the order returned by the lists endpoint and proceeds
with it; it does not fail with an Ambiguous result (only
`_get_list_entries_internal` has that branch). -/
theorem add_to_list_resolve_picks_first_match
    (s : String) (api_key : Option String) (env : AttioEnv)
    (lists : List ListObj) (l : ListObj) (rest : List ListObj)
    (hname : ¬(pyContainsChar s '-' = true ∧ 30 ≤ pyLen s))
    (hauth : ∃ k, resolveApiKey api_key env.envKey = .ok k)
    (hlists : env.listsRemote = .ok lists) (hne : lists ≠ [])
    (hmatch : lists.filter (fun l => lowerIn s (l.name.getD "")) = l :: rest) :
    add_to_list_resolve s api_key env = .ok l.list_id (l.name.getD s) := by
  unfold add_to_list_resolve
  rw [if_pos (by rw [name_cond_true hname])]
  rw [make_attio_request_ok hauth, hlists]
  dsimp only
  rw [if_neg (by rw [isEmpty_false_of_ne_nil hne]; exact Bool.false_ne_true)]
  rw [hmatch]

/-- Claim C3: list resolution by name in `_get_list_entries_internal` is
exactly a three-way branch on the number of case-insensitive display-name
matches: zero matches fails and returns the full list of available list names;
exactly one match succeeds with that list's canonical id and exact display
name; several matches fail with an Ambiguous result whose message contains
every matched name — no scoring, no picking the first. -/
theorem resolve_list_three_way_branch
    (s : String) (api_key : Option String) (env : AttioEnv) (lists : List ListObj)
    (hname : ¬(pyContainsChar s '-' = true ∧ 30 ≤ pyLen s))
    (hauth : ∃ k, resolveApiKey api_key env.envKey = .ok k)
    (hlists : env.listsRemote = .ok lists) (hne : lists ≠ []) :
    (lists.filter (fun l => lowerIn s (l.name.getD "")) = [] →
      resolve_list_identifier s api_key env = .earlyReturn
        { success := false,
          message := "Could not find list matching '" ++ s ++ "'",
          available_lists := some (lists.map (fun l => l.name.getD "Unknown")),
          suggestion := some "Use one of the available list names" })
    ∧ (∀ l, lists.filter (fun l => lowerIn s (l.name.getD "")) = [l] →
      resolve_list_identifier s api_key env = .ok l.list_id (l.name.getD s))
    ∧ (∀ l₁ l₂ ms, lists.filter (fun l => lowerIn s (l.name.getD "")) = l₁ :: l₂ :: ms →
      ∃ r, resolve_list_identifier s api_key env = .earlyReturn r
        ∧ r.success = false
        ∧ r.suggestion = some "Be more specific or use the list ID directly"
        ∧ (∀ nm ∈ (l₁ :: l₂ :: ms).map (fun l => l.name.getD "Unknown"),
            nm.data <:+: r.message.data)
        ∧ r.entries = [] ∧ r.available_lists = none) := by
  refine ⟨?_, ?_, ?_⟩
  · intro hm
    unfold resolve_list_identifier
    rw [if_pos (by rw [name_cond_true hname])]
    rw [make_attio_request_ok hauth, hlists]
    dsimp only
    rw [if_neg (by rw [isEmpty_false_of_ne_nil hne]; exact Bool.false_ne_true)]
    rw [hm]
  · intro l hm
    unfold resolve_list_identifier
    rw [if_pos (by rw [name_cond_true hname])]
    rw [make_attio_request_ok hauth, hlists]
    dsimp only
    rw [if_neg (by rw [isEmpty_false_of_ne_nil hne]; exact Bool.false_ne_true)]
    rw [hm]
  · intro l₁ l₂ ms hm
    unfold resolve_list_identifier
    rw [if_pos (by rw [name_cond_true hname])]
    rw [make_attio_request_ok hauth, hlists]
    dsimp only
    rw [if_neg (by rw [isEmpty_false_of_ne_nil hne]; exact Bool.false_ne_true)]
    rw [hm]
    refine ⟨_, rfl, rfl, rfl, ?_, rfl, rfl⟩
    intro nm hnm
    show nm.data <:+: (("Found " ++ toString (l₁ :: l₂ :: ms).length ++ " lists matching '"
      ++ s ++ "': ") ++ pyJoin ", " ((l₁ :: l₂ :: ms).map (fun l => l.name.getD "Unknown"))).data
    rw [data_append]
    exact (mem_infix_pyJoin ", " hnm).trans (List.suffix_append _ _).isInfix

theorem find?_first {α : Type} {p : α → Bool} {e : α} :
    ∀ {pre : List α} (post : List α), (∀ x ∈ pre, p x = false) → p e = true →
      (pre ++ e :: post).find? p = some e
  | [], post, _, he => by simp [List.find?, he]
  | a :: pre, post, hpre, he => by
    have ha : p a = false := hpre a (List.mem_cons_self a pre)
    show List.find? p (a :: (pre ++ e :: post)) = some e
    rw [List.find?_cons_of_neg _ (by simp [ha])]
    exact find?_first post (fun x hx => hpre x (List.mem_cons_of_mem a hx)) he

/-- Claim C9: when more than one entry of the resolved list has a record
email or record name containing the person identifier case-insensitively,
`update_list_entry` silently selects the first matching entry in returned
order and updates that entry, reporting plain success without any ambiguity
information. -/
theorem update_list_entry_first_match
    (s pid : String) (attrs : EntryAttrs) (api_key : Option String) (env : AttioEnv)
    (raws : List RawEntry) (pre : List NormEntry) (e₁ : NormEntry) (post : List NormEntry)
    (hid : pyContainsChar s '-' = true) (hlen : 30 ≤ pyLen s)
    (hauth : ∃ k, resolveApiKey api_key env.envKey = .ok k)
    (hent : env.entriesRemote (some s) { limit := 100, filter := none } = .ok raws)
    (hne : raws ≠ [])
    (hsplit : raws.map normalizeEntry = pre ++ e₁ :: post)
    (hpre : ∀ x ∈ pre, update_match pid x = false)
    (he₁ : update_match pid e₁ = true)
    (hmulti : ∃ e₂ ∈ post, update_match pid e₂ = true)
    (hput : env.putEntryRemote (some s) e₁.entry_id attrs = .ok ()) :
    update_list_entry s pid attrs api_key env = .done
      { success := true,
        message := "Successfully updated " ++ pid ++ " in list '" ++ s ++ "'",
        updated_attributes := some attrs,
        entry_id := e₁.entry_id } := by
  unfold update_list_entry
  unfold get_list_entries
  rw [get_list_entries_internal_canonical_ok hid hlen hauth hent hne]
  dsimp only
  rw [if_neg (fun h => Bool.noConfusion h)]
  rw [if_neg (fun h => Bool.noConfusion h)]
  rw [hsplit, find?_first post hpre he₁]
  dsimp only
  rw [make_attio_request_ok hauth, hput]
  rfl

theorem add_loop_eq_map (api_key : Option String) (env : AttioEnv)
    (list_id : Option String) (ea : Option EntryAttrs) :
    ∀ (ids : List String) (acc : List BulkItemResult),
      add_loop api_key env list_id ea acc ids
        = acc ++ ids.map (add_person api_key env list_id ea)
  | [], acc => by simp [add_loop]
  | p :: ps, acc => by
    rw [add_loop, add_loop_eq_map api_key env list_id ea ps]
    simp

theorem add_person_identifier (api_key : Option String) (env : AttioEnv)
    (list_id : Option String) (ea : Option EntryAttrs) (pid : String) :
    (add_person api_key env list_id ea pid).identifier = pid := by
  unfold add_person
  dsimp only
  repeat' split
  all_goals rfl

theorem add_to_list_resolved
    {s : String} {ids : List String} {ea : Option EntryAttrs} {api_key : Option String}
    {env : AttioEnv} {lid : Option String} {lname : String}
    (hres : add_to_list_resolve s api_key env = .ok lid lname) :
    add_to_list s ids ea api_key env
      = { success := true, list_name := some lname,
          total_attempted := some ids.length,
          successful := some ((ids.map (add_person api_key env lid ea)).countP
            BulkItemResult.success),
          failed := some (ids.length - (ids.map (add_person api_key env lid ea)).countP
            BulkItemResult.success),
          results := ids.map (add_person api_key env lid ea),
          message := "Added "
            ++ toString ((ids.map (add_person api_key env lid ea)).countP BulkItemResult.success)
            ++ "/" ++ toString ids.length ++ " people to '" ++ lname ++ "'" } := by
  unfold add_to_list
  rw [hres]
  dsimp only
  rw [add_loop_eq_map api_key env lid ea ids []]
  rw [List.nil_append]

/-- Claim C4: `add_to_list` processes submitted identifiers independently and
in submission order: the per-item result list has one entry per identifier in
order, the summary counts are total = number submitted, successful = number of
per-item successes and failed = total minus successful; processing a
concatenation equals the concatenation of the separate runs (item isolation);
and an identifier containing `@` is searched by email-contains while one
without is searched by name-contains, a zero-match search being recorded as
the per-item failure "Person not found". -/
theorem add_to_list_bulk_item_processing
    (s : String) (ids ids₁ ids₂ : List String) (ea : Option EntryAttrs)
    (api_key : Option String) (env : AttioEnv) (lid : Option String) (lname : String)
    (hres : add_to_list_resolve s api_key env = .ok lid lname) :
    ((add_to_list s ids ea api_key env).total_attempted = some ids.length
      ∧ (add_to_list s ids ea api_key env).results.length = ids.length
      ∧ (add_to_list s ids ea api_key env).results.map BulkItemResult.identifier = ids
      ∧ (add_to_list s ids ea api_key env).successful
          = some ((add_to_list s ids ea api_key env).results.countP BulkItemResult.success)
      ∧ (add_to_list s ids ea api_key env).failed
          = some (ids.length
              - (add_to_list s ids ea api_key env).results.countP BulkItemResult.success))
    ∧ (add_to_list s (ids₁ ++ ids₂) ea api_key env).results
        = (add_to_list s ids₁ ea api_key env).results
          ++ (add_to_list s ids₂ ea api_key env).results
    ∧ (∀ i (h : i < ids.length),
        (add_to_list s ids ea api_key env).results[i]?
          = some (add_person api_key env lid ea ids[i]))
    ∧ (∀ pid, pyContainsChar pid '@' = true →
        (∃ k, resolveApiKey api_key env.envKey = .ok k) →
        env.recordsRemote "people"
            { limit := 1, filter := some (.emailContains pid), sorts := none } = .ok [] →
        add_person api_key env lid ea pid
          = { identifier := pid, success := false, message := "Person not found" })
    ∧ (∀ pid, pyContainsChar pid '@' = false →
        (∃ k, resolveApiKey api_key env.envKey = .ok k) →
        env.recordsRemote "people"
            { limit := 1, filter := some (.nameContains pid), sorts := none } = .ok [] →
        add_person api_key env lid ea pid
          = { identifier := pid, success := false, message := "Person not found" }) := by
  refine ⟨⟨?_, ?_, ?_, ?_, ?_⟩, ?_, ?_, ?_, ?_⟩
  · rw [add_to_list_resolved hres]
  · rw [add_to_list_resolved hres]
    exact List.length_map _ _
  · rw [add_to_list_resolved hres]
    dsimp only
    rw [List.map_map]
    have : ∀ p ∈ ids, (BulkItemResult.identifier ∘ add_person api_key env lid ea) p = id p :=
      fun p _ => add_person_identifier api_key env lid ea p
    rw [List.map_congr_left this, List.map_id]
  · rw [add_to_list_resolved hres]
  · rw [add_to_list_resolved hres]
  · rw [add_to_list_resolved hres, add_to_list_resolved hres, add_to_list_resolved hres]
    exact List.map_append _ _ _
  · intro i h
    rw [add_to_list_resolved hres]
    dsimp only
    rw [List.getElem?_map, List.getElem?_eq_getElem h]
    rfl
  · intro pid hat hauth hrec
    have hq : query_records "people" api_key (some (.emailContains pid)) 1 none env
        = { success := true, found := some false, count := some 0, records := [],
            message := "No people found matching the filters",
            filters_used := some (.emailContains pid) } := by
      unfold query_records
      dsimp only
      rw [make_attio_request_ok hauth, hrec]
      rfl
    have hfilt : (if (!pyContainsChar pid '@') = true then AttioFilter.nameContains pid
        else AttioFilter.emailContains pid) = AttioFilter.emailContains pid := by
      rw [hat]
      rfl
    unfold add_person
    dsimp only
    rw [hfilt, hq]
    rfl
  · intro pid hat hauth hrec
    have hq : query_records "people" api_key (some (.nameContains pid)) 1 none env
        = { success := true, found := some false, count := some 0, records := [],
            message := "No people found matching the filters",
            filters_used := some (.nameContains pid) } := by
      unfold query_records
      dsimp only
      rw [make_attio_request_ok hauth, hrec]
      rfl
    have hfilt : (if (!pyContainsChar pid '@') = true then AttioFilter.nameContains pid
        else AttioFilter.emailContains pid) = AttioFilter.nameContains pid := by
      rw [hat]
      rfl
    unfold add_person
    dsimp only
    rw [hfilt, hq]
    rfl

/-- Claim C10: whenever `add_to_list` successfully resolves its list
identifier, the returned summary has top-level success = true regardless of
the per-item outcomes; when every item fails, failed equals the number
attempted and successful equals 0, with the top-level flag still true. -/
theorem add_to_list_top_level_success
    (s : String) (ids : List String) (ea : Option EntryAttrs) (api_key : Option String)
    (env : AttioEnv) (lid : Option String) (lname : String)
    (hres : add_to_list_resolve s api_key env = .ok lid lname) :
    (add_to_list s ids ea api_key env).success = true
    ∧ (add_to_list s ids ea api_key env).list_name = some lname
    ∧ ((∀ r ∈ (add_to_list s ids ea api_key env).results, r.success = false) →
        (add_to_list s ids ea api_key env).successful = some 0
        ∧ (add_to_list s ids ea api_key env).failed = some ids.length) := by
  refine ⟨by rw [add_to_list_resolved hres], by rw [add_to_list_resolved hres], ?_⟩
  intro hall
  rw [add_to_list_resolved hres] at hall ⊢
  dsimp only at hall ⊢
  have hzero : (ids.map (add_person api_key env lid ea)).countP BulkItemResult.success = 0 := by
    rw [List.countP_eq_zero]
    intro a ha
    rw [hall a ha]
    exact Bool.noConfusion
  rw [hzero]
  exact ⟨rfl, rfl⟩

theorem make_attio_request_nokey {α : Type} {api_key envKey : Option String}
    {r : Except String α} (hapi : pyFalsyStr api_key = true)
    (henv : pyFalsyStr envKey = true) :
    make_attio_request api_key envKey r = .error authMissingMsg := by
  unfold make_attio_request resolveApiKey
  rw [if_pos hapi, if_pos henv]

set_option maxRecDepth 8192 in

theorem entriesErrorResult_auth :
    entriesErrorResult authMissingMsg
      = { success := false, error := some authMissingMsg,
          message := "Failed to get list entries: " ++ authMissingMsg } := by
  decide

theorem infix_data_append_right (a b : String) : b.data <:+: (a ++ b).data := by
  rw [data_append]
  exact (List.suffix_append _ _).isInfix

theorem get_list_entries_nokey (s : String) (api_key : Option String)
    (filters : Option AttioFilter) (limit : Int) (env : AttioEnv)
    (hapi : pyFalsyStr api_key = true) (henv : pyFalsyStr env.envKey = true) :
    get_list_entries_internal s api_key filters limit env
      = entriesErrorResult authMissingMsg := by
  unfold get_list_entries_internal resolve_list_identifier
  by_cases hcond : (!(pyContainsChar s '-') || decide (pyLen s < 30)) = true
  · rw [if_pos hcond, make_attio_request_nokey hapi henv]
  · rw [if_neg hcond]
    dsimp only
    rw [make_attio_request_nokey hapi henv]

/-- Claim C7 (amended): no operation raises — each returns a structured
result. With no credential resolvable from the explicit argument or the
process configuration, `query_records`, `get_list_entries`,
`get_list_statuses` and `update_list_entry` return success = false with the
AuthMissing message; `create_note` does so for a canonical-form identifier and
still returns success = false (with a not-found message) for a name-form one;
`add_to_list` returns the AuthMissing failure only for a name-form list
identifier — its canonical-id path instead swallows per-item auth errors (see
the counterexample). -/
theorem no_credential_structured_results
    (ot s pid content title : String) (filters : Option AttioFilter) (limit : Int)
    (sorts : Option (List String)) (attrs : EntryAttrs) (ids : List String)
    (ea : Option EntryAttrs) (api_key : Option String) (env : AttioEnv)
    (hapi : pyFalsyStr api_key = true) (henv : pyFalsyStr env.envKey = true) :
    ((query_records ot api_key filters limit sorts env).success = false
      ∧ authMissingMsg.data <:+: (query_records ot api_key filters limit sorts env).message.data)
    ∧ ((get_list_entries s api_key filters limit env).success = false
      ∧ authMissingMsg.data <:+: (get_list_entries s api_key filters limit env).message.data)
    ∧ (∃ r, get_list_statuses s api_key env = .passthrough r ∧ r.success = false
        ∧ authMissingMsg.data <:+: r.message.data)
    ∧ (∃ r, update_list_entry s pid attrs api_key env = .passthrough r ∧ r.success = false
        ∧ authMissingMsg.data <:+: r.message.data)
    ∧ (pyContainsChar s '-' = true → 31 ≤ pyLen s →
        (create_note ot s content title api_key env).success = false
        ∧ authMissingMsg.data <:+: (create_note ot s content title api_key env).message.data)
    ∧ (¬(pyContainsChar s '-' = true ∧ 31 ≤ pyLen s) →
        (create_note ot s content title api_key env).success = false)
    ∧ (¬(pyContainsChar s '-' = true ∧ 30 ≤ pyLen s) →
        (add_to_list s ids ea api_key env).success = false
        ∧ authMissingMsg.data <:+: (add_to_list s ids ea api_key env).message.data) := by
  have hq : query_records ot api_key filters limit sorts env
      = { success := false, error := some authMissingMsg,
          message := "Failed to query " ++ ot ++ ": " ++ authMissingMsg,
          suggestion := some (querySuggestion ot authMissingMsg),
          filters_used := filters } := by
    unfold query_records
    dsimp only
    rw [make_attio_request_nokey hapi henv]
  have he : get_list_entries_internal s api_key filters limit env
      = { success := false, error := some authMissingMsg,
          message := "Failed to get list entries: " ++ authMissingMsg } := by
    rw [get_list_entries_nokey s api_key filters limit env hapi henv,
        entriesErrorResult_auth]
  have he100 : get_list_entries_internal s api_key none 100 env
      = { success := false, error := some authMissingMsg,
          message := "Failed to get list entries: " ++ authMissingMsg } := by
    rw [get_list_entries_nokey s api_key none 100 env hapi henv, entriesErrorResult_auth]
  refine ⟨?_, ?_, ?_, ?_, ?_, ?_, ?_⟩
  · rw [hq]
    exact ⟨rfl, infix_data_append_right _ _⟩
  · unfold get_list_entries
    rw [he]
    exact ⟨rfl, infix_data_append_right _ _⟩
  · refine ⟨{ success := false, error := some authMissingMsg,
              message := "Failed to get list entries: " ++ authMissingMsg }, ?_, rfl,
            infix_data_append_right "Failed to get list entries: " authMissingMsg⟩
    unfold get_list_statuses
    rw [he100]
    rfl
  · refine ⟨{ success := false, error := some authMissingMsg,
              message := "Failed to get list entries: " ++ authMissingMsg }, ?_, rfl,
            infix_data_append_right "Failed to get list entries: " authMissingMsg⟩
    unfold update_list_entry get_list_entries
    rw [he100]
    rfl
  · intro hid hlen
    have hcond : (pyContainsChar s '-' && decide (30 < pyLen s)) = true := by
      rw [hid]
      simp only [Bool.true_and, decide_eq_true_eq]
      omega
    have hnotempty : pyFalsyStr (some s) = false := by
      show s.data.isEmpty = false
      apply isEmpty_false_of_ne_nil
      intro hnil
      have : pyLen s = 0 := by rw [pyLen, hnil]; rfl
      omega
    have hc : create_note ot s content title api_key env
        = { success := false, error := some authMissingMsg,
            message := "Failed to create note: " ++ authMissingMsg,
            suggestion := some "Use list_available_objects() to see valid object types" } := by
      unfold create_note create_note_resolve
      rw [if_pos hcond]
      dsimp only
      rw [if_neg (by rw [hnotempty]; exact Bool.false_ne_true)]
      rw [make_attio_request_nokey hapi henv]
    rw [hc]
    exact ⟨rfl, infix_data_append_right _ _⟩
  · intro h
    have hcond : ¬(pyContainsChar s '-' && decide (30 < pyLen s)) = true := by
      intro hcond
      rw [Bool.and_eq_true] at hcond
      rcases hcond with ⟨hid, hlt⟩
      rw [decide_eq_true_eq] at hlt
      exact h ⟨hid, by omega⟩
    have hq5 : query_records ot api_key (some (.nameContains s)) 5 none env
        = { success := false, error := some authMissingMsg,
            message := "Failed to query " ++ ot ++ ": " ++ authMissingMsg,
            suggestion := some (querySuggestion ot authMissingMsg),
            filters_used := some (.nameContains s) } := by
      unfold query_records
      dsimp only
      rw [make_attio_request_nokey hapi henv]
    unfold create_note create_note_resolve
    rw [if_neg hcond]
    simp only [hq5]
    rfl
  · intro h
    have ha : add_to_list s ids ea api_key env
        = { success := false, error := some authMissingMsg,
            message := "Failed to add to list: " ++ authMissingMsg } := by
      unfold add_to_list add_to_list_resolve
      rw [if_pos (by rw [name_cond_true h])]
      rw [make_attio_request_nokey hapi henv]
    rw [ha]
    exact ⟨rfl, infix_data_append_right _ _⟩

set_option maxRecDepth 8192 in

/-- Claim C8 (amended): on remote failure `get_list_entries` inspects the
error text for the two status signatures: unknown-status-slug gets a hint
naming `get_list_statuses`, invalid-filter-operator gets the `$eq`-only hint
(which does not name `get_list_statuses`), and every other error passes
through with no suggestion at all; `query_records` instead inspects for
404/not-found and 400/bad-request, attaching hints naming
`list_available_objects` and `get_object_schema`, with an empty suggestion
otherwise. -/
theorem remote_error_suggestions
    (ot s e : String) (api_key : Option String) (env : AttioEnv)
    (filters : Option AttioFilter) (limit : Int) (sorts : Option (List String))
    (hauth : ∃ k, resolveApiKey api_key env.envKey = .ok k)
    (hrec : env.recordsRemote ot { limit := limit, filter := filters, sorts := sorts }
      = .error e)
    (hid : pyContainsChar s '-' = true) (hlen : 30 ≤ pyLen s)
    (hent : env.entriesRemote (some s) { limit := limit, filter := filters } = .error e) :
    ((query_records ot api_key filters limit sorts env).success = false
      ∧ (query_records ot api_key filters limit sorts env).error = some e
      ∧ (pySubstr "404" e = true ∨ pySubstr "not found" (pyLower e) = true →
          (query_records ot api_key filters limit sorts env).suggestion
            = some ("Object type '" ++ ot
                ++ "' may not exist. Use list_available_objects() to see valid types."))
      ∧ (pySubstr "404" e = false → pySubstr "not found" (pyLower e) = false →
          (pySubstr "400" e = true ∨ pySubstr "bad request" (pyLower e) = true) →
          (query_records ot api_key filters limit sorts env).suggestion
            = some "Filter syntax may be incorrect. Use get_object_schema() to see valid attributes.")
      ∧ (pySubstr "404" e = false → pySubstr "not found" (pyLower e) = false →
          pySubstr "400" e = false → pySubstr "bad request" (pyLower e) = false →
          (query_records ot api_key filters limit sorts env).suggestion = some ""))
    ∧ ((get_list_entries s api_key filters limit env).success = false
      ∧ (get_list_entries s api_key filters limit env).error = some e
      ∧ (pySubstr "unknown_filter_status_slug" e = true ∨ pySubstr "Unknown status" e = true →
          (get_list_entries s api_key filters limit env).suggestion = some statusHintMsg
          ∧ (get_list_entries s api_key filters limit env).help = some .statusTool
          ∧ pySubstr "get_list_statuses" statusHintMsg = true)
      ∧ (pySubstr "unknown_filter_status_slug" e = false → pySubstr "Unknown status" e = false →
          pySubstr "invalid_filter_operator" e = true →
          (get_list_entries s api_key filters limit env).suggestion = some eqHintMsg
          ∧ (get_list_entries s api_key filters limit env).help = some .eqFormat
          ∧ pySubstr "get_list_statuses" eqHintMsg = false)
      ∧ (pySubstr "unknown_filter_status_slug" e = false → pySubstr "Unknown status" e = false →
          pySubstr "invalid_filter_operator" e = false →
          (get_list_entries s api_key filters limit env).suggestion = none
          ∧ (get_list_entries s api_key filters limit env).help = none)) := by
  have hq : query_records ot api_key filters limit sorts env
      = { success := false, error := some e,
          message := "Failed to query " ++ ot ++ ": " ++ e,
          suggestion := some (querySuggestion ot e),
          filters_used := filters } := by
    unfold query_records
    dsimp only
    rw [make_attio_request_ok hauth, hrec]
  have hee : get_list_entries s api_key filters limit env = entriesErrorResult e := by
    unfold get_list_entries get_list_entries_internal
    rw [resolve_list_identifier_canonical hid hlen]
    dsimp only
    rw [make_attio_request_ok hauth, hent]
  constructor
  · rw [hq]
    refine ⟨rfl, rfl, ?_, ?_, ?_⟩
    · intro hsig
      show some (querySuggestion ot e) = _
      unfold querySuggestion
      rw [if_pos (by rcases hsig with h | h <;> simp [h])]
    · intro h1 h2 hsig
      show some (querySuggestion ot e) = _
      unfold querySuggestion
      rw [if_neg (by simp [h1, h2]), if_pos (by rcases hsig with h | h <;> simp [h])]
    · intro h1 h2 h3 h4
      show some (querySuggestion ot e) = _
      unfold querySuggestion
      rw [if_neg (by simp [h1, h2]), if_neg (by simp [h3, h4])]
  · rw [hee]
    refine ⟨?_, ?_, ?_, ?_, ?_⟩
    · unfold entriesErrorResult
      split
      · rfl
      · split
        · rfl
        · rfl
    · unfold entriesErrorResult
      split
      · rfl
      · split
        · rfl
        · rfl
    · intro hsig
      unfold entriesErrorResult
      rw [if_pos (by rcases hsig with h | h <;> simp [h])]
      exact ⟨rfl, rfl, by decide⟩
    · intro h1 h2 hsig
      unfold entriesErrorResult
      rw [if_neg (by simp [h1, h2]), if_pos (by simp [hsig])]
      exact ⟨rfl, rfl, by decide⟩
    · intro h1 h2 h3
      unfold entriesErrorResult
      rw [if_neg (by simp [h1, h2]), if_neg (by simp [h3])]
      exact ⟨rfl, rfl⟩

/-! ## Witnesses and counterexamples -/

/-- Claim C1, counterexample: with two lists matching "alpha", `add_to_list`
does not fail with an Ambiguous result — it reports top-level success and
proceeds with the first match "Alpha A". -/
theorem add_to_list_two_matches_succeeds_example :
    (sampleLists.filter (fun l => lowerIn "alpha" (l.name.getD ""))).length = 2
    ∧ (add_to_list "alpha" [] none none sampleEnv).success = true
    ∧ (add_to_list "alpha" [] none none sampleEnv).list_name = some "Alpha A" := by
  refine ⟨by decide, by decide, by decide⟩

/-- Claim C1, witness: the amended theorem at the two-match sample. -/
theorem add_to_list_resolve_picks_first_match_witness :
    sampleLists.filter (fun l => lowerIn "alpha" (l.name.getD ""))
      = [{ list_id := some "id-A", name := some "Alpha A" },
         { list_id := some "id-B", name := some "Alpha B" }]
    ∧ add_to_list_resolve "alpha" (some "k") sampleEnv = .ok (some "id-A") "Alpha A" :=
  ⟨by decide,
   add_to_list_resolve_picks_first_match "alpha" (some "k") sampleEnv sampleLists
     { list_id := some "id-A", name := some "Alpha A" }
     [{ list_id := some "id-B", name := some "Alpha B" }]
     (by decide) ⟨"k", rfl⟩ rfl (by decide) (by decide)⟩

/-- Claim C2, counterexample: a 30-character identifier containing the
separator is treated as a canonical id by the list resolvers but goes down
the name-search path in `create_note` (which then reports not-found against
an empty search result instead of attaching the note directly). -/
theorem create_note_heuristic_boundary_example :
    (pyContainsChar canon30 '-' = true ∧ pyLen canon30 = 30)
    ∧ resolve_list_identifier canon30 (some "k") sampleEnv = .ok (some canon30) canon30
    ∧ add_to_list_resolve canon30 (some "k") sampleEnv = .ok (some canon30) canon30
    ∧ create_note_resolve "people" canon30 (some "k") sampleEnv ≠ .ok (some canon30) canon30
    ∧ (create_note "people" canon30 "content" "Note" (some "k") sampleEnv).success = false := by
  refine ⟨by decide, by decide, by decide, by decide, by decide⟩

/-- Claim C2, witness: the amended theorem applied at a name-form identifier
and at a 31-character canonical identifier. -/
theorem canonical_id_heuristic_paths_witness :
    resolve_list_identifier "Fundraising" (some "k")
      { sampleEnv with listsRemote := .error "HTTP 500: boom" } = .raised "HTTP 500: boom"
    ∧ create_note_resolve "people" canon31 (some "k") sampleEnv = .ok (some canon31) canon31 :=
  ⟨((canonical_id_heuristic_paths "Fundraising" "people" "HTTP 500: boom" (some "k")
      sampleEnv ⟨"k", rfl⟩).2.1 (by decide)).1,
   (canonical_id_heuristic_paths canon31 "people" "unused" (some "k")
      sampleEnv ⟨"k", rfl⟩).2.2.1 (by decide)⟩

/-- Claim C3, witness: the three-way branch at a two-match sample — the
result is an Ambiguous failure whose message contains both matched names. -/
theorem resolve_list_three_way_branch_witness :
    (¬(pyContainsChar "alpha" '-' = true ∧ 30 ≤ pyLen "alpha") ∧ sampleLists ≠ [])
    ∧ (∃ r, resolve_list_identifier "alpha" (some "k") sampleEnv = .earlyReturn r
        ∧ r.success = false
        ∧ "Alpha A".data <:+: r.message.data
        ∧ "Alpha B".data <:+: r.message.data) := by
  refine ⟨⟨by decide, by decide⟩, ?_⟩
  obtain ⟨r, h1, h2, _h3, h4, _⟩ :=
    (resolve_list_three_way_branch "alpha" (some "k") sampleEnv sampleLists
      (by decide) ⟨"k", rfl⟩ rfl (by decide)).2.2
      { list_id := some "id-A", name := some "Alpha A" }
      { list_id := some "id-B", name := some "Alpha B" } [] (by decide)
  exact ⟨r, h1, h2, h4 "Alpha A" (by decide), h4 "Alpha B" (by decide)⟩

/-- Claim C4, witness: the bulk-processing theorem at a resolved list, with
the email-routing conclusion evaluated at "a@e.com" (no match, so the item
fails with "Person not found"). -/
theorem add_to_list_bulk_item_processing_witness :
    add_to_list_resolve "alpha" (some "k") sampleEnv = .ok (some "id-A") "Alpha A"
    ∧ (add_to_list "alpha" ["a@e.com", "Bob"] none (some "k") sampleEnv).results.map
        BulkItemResult.identifier = ["a@e.com", "Bob"]
    ∧ add_person (some "k") sampleEnv (some "id-A") none "a@e.com"
        = { identifier := "a@e.com", success := false, message := "Person not found" } := by
  have h := add_to_list_bulk_item_processing "alpha" ["a@e.com", "Bob"] [] [] none
    (some "k") sampleEnv (some "id-A") "Alpha A" (by decide)
  exact ⟨by decide, h.1.2.2.1, h.2.2.2.1 "a@e.com" (by decide) ⟨"k", rfl⟩ rfl⟩

/-- Claim C5, witness: flattening the sample record keeps `name` (mapped to
element 0) and omits the empty-array key entirely. -/
theorem normalize_record_values_flattening_witness :
    ((sampleRawRecord.values.map Prod.fst).Nodup ∧ "name" ≠ "id")
    ∧ dictGet (normalizeRecord sampleRawRecord).attrs "name" = some (valueAttr "John")
    ∧ (∀ v, ("emptykey", v) ∉ (normalizeRecord sampleRawRecord).attrs) :=
  ⟨⟨by decide, by decide⟩,
   (normalize_record_values_flattening sampleRawRecord (by decide) "name"
      (by decide)).2.2.2.2 [valueAttr "John"] (valueAttr "John") (by decide) rfl,
   fun v => (normalize_record_values_flattening sampleRawRecord (by decide) "emptykey"
      (by decide)).2.2.1 [] (by decide) rfl v⟩

/-- Claim C6, witness: a 100-entry sample containing exactly 3 distinct
status ids yields exactly 3 catalog entries. -/
theorem get_list_statuses_catalog_witness :
    (pyContainsChar canon31 '-' = true ∧ 30 ≤ pyLen canon31 ∧ statusSample ≠ []
      ∧ (observedStatusIds (statusSample.map normalizeEntry)).dedup.length = 3)
    ∧ (∃ res, get_list_statuses canon31 (some "k") statusEnv = .done res
        ∧ res.statuses.length = 3) := by
  refine ⟨⟨by decide, by decide, by decide, by decide⟩, ?_⟩
  obtain ⟨res, h1, _h2, _h3, _h4, _h5, _h6, _h7, hlen, _⟩ :=
    get_list_statuses_catalog canon31 (some "k") statusEnv statusSample
      (by decide) (by decide) ⟨"k", rfl⟩ rfl (by decide)
  refine ⟨res, h1, ?_⟩
  rw [hlen]
  decide

/-- Claim C7, counterexample: with no credential anywhere, `add_to_list` on a
canonical-form list id returns top-level success = true (the per-item auth
failure surfaces only as "Person not found"), not an AuthMissing failure. -/
theorem add_to_list_no_credential_success_example :
    noKeyEnv.envKey = none
    ∧ (add_to_list canon31 [] none none noKeyEnv).success = true
    ∧ (add_to_list canon31 ["a@e.com"] none none noKeyEnv).success = true
    ∧ (add_to_list canon31 ["a@e.com"] none none noKeyEnv).results
        = [{ identifier := "a@e.com", success := false, message := "Person not found" }] := by
  refine ⟨rfl, by decide, by decide, by decide⟩

/-- Claim C7, witness: the amended theorem at the credential-free
environment, projected to `query_records` and `get_list_entries`. -/
theorem no_credential_structured_results_witness :
    (pyFalsyStr (none : Option String) = true ∧ pyFalsyStr noKeyEnv.envKey = true)
    ∧ (query_records "people" none none 50 none noKeyEnv).success = false
    ∧ authMissingMsg.data <:+: (query_records "people" none none 50 none noKeyEnv).message.data
    ∧ (get_list_entries "alpha" none none 50 noKeyEnv).success = false :=
  ⟨⟨rfl, rfl⟩,
   (no_credential_structured_results "people" "alpha" "john" "c" "t" none 50 none [] []
      none none noKeyEnv rfl rfl).1.1,
   (no_credential_structured_results "people" "alpha" "john" "c" "t" none 50 none [] []
      none none noKeyEnv rfl rfl).1.2,
   (no_credential_structured_results "people" "alpha" "john" "c" "t" none 50 none [] []
      none none noKeyEnv rfl rfl).2.1.1⟩

/-- Claim C8, counterexample: `query_records` on a remote error carrying the
unknown-status-slug signature attaches the empty suggestion — no hint
pointing at `get_list_statuses` — because its handler only inspects for
404/not-found and 400/bad-request. -/
theorem query_records_unknown_status_slug_empty_suggestion :
    pySubstr "unknown_filter_status_slug" slugErr = true
    ∧ (query_records "people" (some "k") none 50 none slugErrEnv).success = false
    ∧ (query_records "people" (some "k") none 50 none slugErrEnv).suggestion = some ""
    ∧ pySubstr "get_list_statuses" "" = false := by
  refine ⟨by decide, by decide, by decide, by decide⟩

/-- Claim C8, witness: the amended theorem at the unknown-status-slug error —
`get_list_entries` attaches the hint naming `get_list_statuses`. -/
theorem remote_error_suggestions_witness :
    slugErrEnv.recordsRemote "people" { limit := 50, filter := none, sorts := none }
      = .error slugErr
    ∧ (get_list_entries canon31 (some "k") none 50 slugErrEnv).suggestion = some statusHintMsg
    ∧ pySubstr "get_list_statuses" statusHintMsg = true := by
  have h := remote_error_suggestions "people" canon31 slugErr (some "k") slugErrEnv
    none 50 none ⟨"k", rfl⟩ rfl (by decide) (by decide) rfl
  exact ⟨rfl, (h.2.2.2.1 (Or.inl (by decide))).1, (h.2.2.2.1 (Or.inl (by decide))).2.2⟩

/-- Claim C9, witness: with two entries matching "john", the first entry in
returned order ("e1") is updated, and the result reports plain success. -/
theorem update_list_entry_first_match_witness :
    (update_match "john" (normalizeEntry (emailEntry "e1" "john@a.com")) = true
      ∧ update_match "john" (normalizeEntry (emailEntry "e2" "john@b.com")) = true)
    ∧ update_list_entry canon31 "john" [] (some "k") updEnv = .done
        { success := true,
          message := "Successfully updated john in list '" ++ canon31 ++ "'",
          updated_attributes := some [],
          entry_id := some "e1" } :=
  ⟨⟨by decide, by decide⟩,
   update_list_entry_first_match canon31 "john" [] (some "k") updEnv updEntries
     [] (normalizeEntry (emailEntry "e1" "john@a.com"))
     [normalizeEntry (emailEntry "e2" "john@b.com")]
     (by decide) (by decide) ⟨"k", rfl⟩ rfl (by decide) (by decide)
     (fun x hx => absurd hx (List.not_mem_nil x)) (by decide)
     ⟨normalizeEntry (emailEntry "e2" "john@b.com"), by decide, by decide⟩ rfl⟩

/-- Claim C10, witness: with the single submitted identifier failing, the
summary still reports top-level success with successful = 0 and failed = 1. -/
theorem add_to_list_top_level_success_witness :
    add_to_list_resolve "alpha" (some "k") sampleEnv = .ok (some "id-A") "Alpha A"
    ∧ (add_to_list "alpha" ["ghost@nowhere.com"] none (some "k") sampleEnv).success = true
    ∧ (add_to_list "alpha" ["ghost@nowhere.com"] none (some "k") sampleEnv).successful = some 0
    ∧ (add_to_list "alpha" ["ghost@nowhere.com"] none (some "k") sampleEnv).failed = some 1 := by
  have h := add_to_list_top_level_success "alpha" ["ghost@nowhere.com"] none (some "k")
    sampleEnv (some "id-A") "Alpha A" (by decide)
  exact ⟨by decide, h.1, (h.2.2 (by decide)).1, (h.2.2 (by decide)).2⟩
